import Mathlib

/-!
Shallow embedding of `src/patient_records_backend/src/lib.rs`, the core of the
patient-record-access canister: three persistent ID-keyed stores (patients,
hospitals, doctors) plus a shared monotonic ID counter, with password-gated
create/edit/assign/read operations.

The `StableBTreeMap` storage is modelled as an association list with the map
ADT semantics the code relies on: `lookup` is `get`, `mapInsert` is `insert`
(the previous value an insert returns is `lookup` of the old map).  The
`u64` counter and IDs are modelled as `Nat` (64-bit exhaustion is out of
scope per the spec).  `ic_cdk::api::time()` is an explicit `now` parameter.
String formatting mirrors the exact `format!` strings of the source.
-/

namespace PatientRecords

/-- Rust struct `Patient` (lib.rs lines 14-22). -/
structure Patient where
  id : Nat
  name : String
  history : String
  password : String
  doctors_ids : List Nat
  hospitals_ids : List Nat
deriving Repr, DecidableEq

/-- Rust struct `Hospital` (lib.rs lines 37-45). -/
structure Hospital where
  id : Nat
  name : String
  address : String
  password : String
  patients_ids : List Nat
  doctors_ids : List Nat
deriving Repr, DecidableEq

/-- Rust struct `Doctor` (lib.rs lines 58-65). -/
structure Doctor where
  id : Nat
  name : String
  password : String
  hospital_id : Nat
  patient_ids : List Nat
deriving Repr, DecidableEq

/-- Rust enum `Error` (lib.rs lines 801-807). -/
inductive Error where
  | NotFound (msg : String)
  | AlreadyInit (msg : String)
  | InvalidPayload (msg : String)
  | Unauthorized (msg : String)
deriving Repr, DecidableEq

/-- `StableBTreeMap::get`: point lookup in an ID-keyed store. -/
def lookup {α : Type} : List (Nat × α) → Nat → Option α
  | [], _ => none
  | (k, v) :: rest, k' => if k = k' then some v else lookup rest k'

/-- `StableBTreeMap::insert`: overwrite-or-add at a key.  The `Option` of
the previous value that the Rust `insert` returns is `lookup` of the map
before the call. -/
def mapInsert {α : Type} : List (Nat × α) → Nat → α → List (Nat × α)
  | [], k, v => [(k, v)]
  | (k', v') :: rest, k, v =>
      if k' = k then (k, v) :: rest else (k', v') :: mapInsert rest k v

/-- The canister state: the three thread-local stores plus the shared
`ID_COUNTER` cell (lib.rs lines 95-119). -/
structure State where
  counter : Nat
  patients : List (Nat × Patient)
  hospitals : List (Nat × Hospital)
  doctors : List (Nat × Doctor)
deriving Repr, DecidableEq

/-- The freshly initialised canister: counter 0, all stores empty. -/
def emptyState : State := ⟨0, [], [], []⟩

/-- `ID_COUNTER` bump (lib.rs lines 275-280 and duplicates): `Cell::set`
returns the previous value, so the allocated ID is the old counter. -/
def next_id (s : State) : Nat × State :=
  (s.counter, { s with counter := s.counter + 1 })

/-- Rust struct `HospitalPayload` (lib.rs lines 122-130). -/
structure HospitalPayload where
  name : String
  address : String
  password : String
  city : String
deriving Repr, DecidableEq

/-- `validator` constraints on `HospitalPayload`: name and address at least
3 characters. -/
def HospitalPayload.valid (p : HospitalPayload) : Bool :=
  3 ≤ p.name.length && 3 ≤ p.address.length

/-- Rust struct `PatientPayload` (lib.rs lines 132-139). -/
structure PatientPayload where
  name : String
  history : String
  password : String
deriving Repr, DecidableEq

/-- `validator` constraints on `PatientPayload`: name at least 3 characters,
history at least 6. -/
def PatientPayload.valid (p : PatientPayload) : Bool :=
  3 ≤ p.name.length && 6 ≤ p.history.length

/-- Rust struct `EditPatientPayload` (lib.rs lines 141-146). -/
structure EditPatientPayload where
  name : String
  password : String
  patient_id : Nat
deriving Repr, DecidableEq

/-- Rust struct `AddPatientToDoctor` (lib.rs lines 148-154). -/
structure AddPatientToDoctor where
  doctor_id : Nat
  patient_id : Nat
  doctor_password : String
  patient_password : String
deriving Repr, DecidableEq

/-- Rust struct `PatientHistoryUpdate` (lib.rs lines 156-162). -/
structure PatientHistoryUpdate where
  doctor_id : Nat
  patient_id : Nat
  doctor_password : String
  new_history : String
deriving Repr, DecidableEq

/-- Rust struct `EditDoctor` (lib.rs lines 164-171). -/
structure EditDoctor where
  name : String
  doctor_id : Nat
  hospital_id : Nat
  doctor_password : String
  hospital_password : String
deriving Repr, DecidableEq

/-- Rust struct `DoctorPayload` (lib.rs lines 173-181). -/
structure DoctorPayload where
  name : String
  hospital_id : Nat
  password : String
  hospital_password : String
deriving Repr, DecidableEq

/-- `validator` constraints on `DoctorPayload`: name at least 3 characters,
password at least 4. -/
def DoctorPayload.valid (p : DoctorPayload) : Bool :=
  3 ≤ p.name.length && 4 ≤ p.password.length

/-- Rust struct `EditHospitalPayload` (lib.rs lines 183-188). -/
structure EditHospitalPayload where
  hospital_id : Nat
  name : String
  password : String
deriving Repr, DecidableEq

/-- Rust struct `AccessPayload` (lib.rs lines 190-195). -/
structure AccessPayload where
  doctor_id : Nat
  patient_id : Nat
  doctor_password : String
deriving Repr, DecidableEq

/-- `get_hospital_by_id` (lib.rs lines 251-262): public read, password
masked with the placeholder. -/
def get_hospital_by_id (id : Nat) (s : State) : Except Error Hospital :=
  match lookup s.hospitals id with
  | some hospital => .ok { hospital with password := "-" }
  | none => .error (.NotFound ("hospital of id: " ++ toString id ++ " not found"))

/-- `add_hospital` (lib.rs lines 265-297): validate payload, allocate ID,
insert with empty relationship lists. -/
def add_hospital (payload : HospitalPayload) (s : State) :
    Except Error Hospital × State :=
  if payload.valid then
    let (id, s1) := next_id s
    let hospital : Hospital :=
      ⟨id, payload.name, payload.address, payload.password, [], []⟩
    let old := lookup s1.hospitals id
    let s2 := { s1 with hospitals := mapInsert s1.hospitals id hospital }
    match old with
    | some _ =>
        (.error (.InvalidPayload ("Could not add hospital name: " ++ payload.name)), s2)
    | none => (.ok hospital, s2)
  else
    (.error (.InvalidPayload "payload validation failed"), s)

/-- `edit_hospital` (lib.rs lines 300-331): password-gated rename. -/
def edit_hospital (payload : EditHospitalPayload) (s : State) :
    Except Error Hospital × State :=
  match lookup s.hospitals payload.hospital_id with
  | some hospital =>
      if hospital.password ≠ payload.password then
        (.error (.Unauthorized "Unauthorized, password does not match, try again"), s)
      else
        let new_hospital := { hospital with name := payload.name }
        let old := lookup s.hospitals hospital.id
        let s1 := { s with hospitals := mapInsert s.hospitals hospital.id new_hospital }
        match old with
        | some _ => (.ok new_hospital, s1)
        | none =>
            (.error (.InvalidPayload ("Could not edit hospital title: " ++ hospital.name)), s1)
  | none =>
      (.error (.NotFound
        ("hospital of id: " ++ toString payload.hospital_id ++ " not found")), s)

/-- `add_patient_to_hospital` helper (lib.rs lines 412-439): push the patient
ID onto the hospital's `patients_ids` list (no dedup). -/
def add_patient_to_hospital (hospital_id patient_id : Nat) (s : State) :
    Except Error Unit × State :=
  match lookup s.hospitals hospital_id with
  | some hospital =>
      let new_hospital :=
        { hospital with patients_ids := hospital.patients_ids ++ [patient_id] }
      let old := lookup s.hospitals hospital.id
      let s1 := { s with hospitals := mapInsert s.hospitals hospital.id new_hospital }
      match old with
      | some _ => (.ok (), s1)
      | none => (.error (.InvalidPayload "Could not update hospital"), s1)
  | none =>
      (.error (.NotFound
        ("hospital of id: " ++ toString hospital_id ++ " not found")), s)

/-- `assign_patient_to_doctor` (lib.rs lines 334-409): both passwords checked,
then hospital, doctor and patient lists are pushed in that order.  Note the
source's swapped `NotFound` messages: a missing doctor is reported as
"patient of id: ..." and a missing patient as "Doctor of id: ...". -/
def assign_patient_to_doctor (payload : AddPatientToDoctor) (s : State) :
    Except Error String × State :=
  match lookup s.doctors payload.doctor_id with
  | some doctor =>
      if doctor.password ≠ payload.doctor_password then
        (.error (.Unauthorized
          "Doctor Access unauthorized, password does not match, try again"), s)
      else
        match lookup s.patients payload.patient_id with
        | some patient =>
            if patient.password ≠ payload.patient_password then
              (.error (.Unauthorized
                "Patient access unauthorized, password does not match, try again"), s)
            else
              let new_doctor :=
                { doctor with patient_ids := doctor.patient_ids ++ [patient.id] }
              match add_patient_to_hospital doctor.hospital_id patient.id s with
              | (.ok _, s1) =>
                  let oldD := lookup s1.doctors doctor.id
                  let s2 := { s1 with doctors := mapInsert s1.doctors doctor.id new_doctor }
                  match oldD with
                  | some _ =>
                      let new_patient :=
                        { patient with doctors_ids := patient.doctors_ids ++ [doctor.id] }
                      let oldP := lookup s2.patients patient.id
                      let s3 :=
                        { s2 with patients := mapInsert s2.patients patient.id new_patient }
                      match oldP with
                      | some _ =>
                          (.ok ("Succesfully assigned patient " ++ patient.name ++
                            " to doctor: " ++ doctor.name ++ " and hospital: " ++
                            toString doctor.hospital_id ++ " "), s3)
                      | none => (.error (.InvalidPayload "Could not update patient"), s3)
                  | none => (.error (.InvalidPayload "Could not update doctor"), s2)
              | (.error e, s1) => (.error e, s1)
        | none =>
            (.error (.NotFound
              ("Doctor of id: " ++ toString payload.doctor_id ++ " not found")), s)
  | none =>
      (.error (.NotFound
        ("patient of id: " ++ toString payload.patient_id ++ " not found")), s)

/-- The history entry appended by `update_patient_history` (lib.rs lines
465-476): the `format!` suffix after the old history. -/
def historyEntry (doctor : Doctor) (now : Nat) (new_history : String) : String :=
  " \n Doctor " ++ toString doctor.id ++ " : " ++ doctor.name ++ " at " ++
    toString now ++ " \n " ++ new_history

/-- `update_patient_history` (lib.rs lines 442-499): doctor password plus
relationship gate, then append-only history update.  `ic_cdk::api::time()`
is the explicit `now` argument. -/
def update_patient_history (payload : PatientHistoryUpdate) (now : Nat) (s : State) :
    Except Error String × State :=
  match lookup s.doctors payload.doctor_id with
  | some doctor =>
      if doctor.password ≠ payload.doctor_password then
        (.error (.Unauthorized
          "Doctor Access unauthorized, password does not match, try again"), s)
      else
        match lookup s.patients payload.patient_id with
        | some patient =>
            if patient.doctors_ids.contains doctor.id = false then
              (.error (.Unauthorized
                "Patient access unauthorized, doctor is not assigned to patient, try again"), s)
            else
              let new_patient :=
                { patient with
                    history := patient.history ++ historyEntry doctor now payload.new_history }
              let old := lookup s.patients patient.id
              let s1 := { s with patients := mapInsert s.patients patient.id new_patient }
              match old with
              | some _ =>
                  (.ok ("Succesfully updated patient " ++ patient.name ++ " history"), s1)
              | none => (.error (.InvalidPayload "Could not update patient"), s1)
        | none =>
            (.error (.NotFound
              ("Patient of id: " ++ toString payload.patient_id ++ " not found")), s)
  | none =>
      (.error (.NotFound
        ("Doctor of id: " ++ toString payload.doctor_id ++ " not found")), s)

/-- `get_patient` (lib.rs lines 502-514): public read, both the password and
the history are masked with the placeholder. -/
def get_patient (id : Nat) (s : State) : Except Error Patient :=
  match lookup s.patients id with
  | some patient => .ok { patient with password := "-", history := "-" }
  | none => .error (.NotFound ("patient id:" ++ toString id ++ " does not exist"))

/-- `get_patient_info` (lib.rs lines 517-554): doctor-authorized read of the
full patient record (true history, password masked).  The `NotFound`
messages are swapped exactly as in the source. -/
def get_patient_info (payload : AccessPayload) (s : State) : Except Error Patient :=
  match lookup s.doctors payload.doctor_id with
  | some doctor =>
      if doctor.password ≠ payload.doctor_password then
        .error (.Unauthorized
          "Doctor Access unauthorized, password does not match, try again")
      else
        match lookup s.patients payload.patient_id with
        | some patient =>
            if patient.doctors_ids.contains doctor.id = false then
              .error (.Unauthorized
                "Patient access unauthorized, doctor is not assigned to patient, get patient permission")
            else
              .ok { patient with password := "-" }
        | none =>
            .error (.NotFound
              ("Doctor of id: " ++ toString payload.doctor_id ++ " not found"))
  | none =>
      .error (.NotFound
        ("patient of id: " ++ toString payload.patient_id ++ " not found"))

/-- `add_patient` (lib.rs lines 557-589): validate payload, allocate ID,
insert with empty relationship lists. -/
def add_patient (payload : PatientPayload) (s : State) :
    Except Error Patient × State :=
  if payload.valid then
    let (id, s1) := next_id s
    let patient : Patient :=
      ⟨id, payload.name, payload.history, payload.password, [], []⟩
    let old := lookup s1.patients id
    let s2 := { s1 with patients := mapInsert s1.patients id patient }
    match old with
    | some _ =>
        (.error (.InvalidPayload ("Could not add patient name: " ++ payload.name)), s2)
    | none => (.ok patient, s2)
  else
    (.error (.InvalidPayload "payload validation failed"), s)

/-- `edit_patient` (lib.rs lines 594-623): password-gated rename. -/
def edit_patient (payload : EditPatientPayload) (s : State) :
    Except Error Patient × State :=
  match lookup s.patients payload.patient_id with
  | some patient =>
      if patient.password ≠ payload.password then
        (.error (.Unauthorized "Unauthorized, password does not match, try again"), s)
      else
        let new_patient := { patient with name := payload.name }
        let old := lookup s.patients patient.id
        let s1 := { s with patients := mapInsert s.patients patient.id new_patient }
        match old with
        | some _ => (.ok new_patient, s1)
        | none =>
            (.error (.InvalidPayload ("Could not edit patient name: " ++ patient.name)), s1)
  | none =>
      (.error (.NotFound
        ("patient of id: " ++ toString payload.patient_id ++ " not found")), s)

/-- `get_doctor_by_id` (lib.rs lines 626-637): public read, password
masked. -/
def get_doctor_by_id (id : Nat) (s : State) : Except Error Doctor :=
  match lookup s.doctors id with
  | some doctor => .ok { doctor with password := "-" }
  | none => .error (.NotFound ("doctor id:" ++ toString id ++ " does not exist"))

/-- `add_doctor_to_storage` helper (lib.rs lines 675-696): allocate ID and
insert the fresh doctor with empty `patient_ids`. -/
def add_doctor_to_storage (payload : DoctorPayload) (s : State) :
    Except Error Doctor × State :=
  let (id, s1) := next_id s
  let doctor : Doctor :=
    ⟨id, payload.name, payload.password, payload.hospital_id, []⟩
  let old := lookup s1.doctors id
  let s2 := { s1 with doctors := mapInsert s1.doctors id doctor }
  match old with
  | some _ =>
      (.error (.InvalidPayload ("Could not add doctor name: " ++ payload.name)), s2)
  | none => (.ok doctor, s2)

/-- `add_doctor_to_hospital` helper (lib.rs lines 698-727): push the doctor
onto the hospital's `doctors_ids`, then re-store the doctor with its
`hospital_id` set. -/
def add_doctor_to_hospital (doctor : Doctor) (hospital : Hospital) (s : State) :
    Except Error Doctor × State :=
  let new_hospital :=
    { hospital with doctors_ids := hospital.doctors_ids ++ [doctor.id] }
  let oldH := lookup s.hospitals hospital.id
  let s1 := { s with hospitals := mapInsert s.hospitals hospital.id new_hospital }
  match oldH with
  | some _ =>
      let new_doctor := { doctor with hospital_id := hospital.id }
      let oldD := lookup s1.doctors doctor.id
      let s2 := { s1 with doctors := mapInsert s1.doctors doctor.id new_doctor }
      match oldD with
      | some _ => (.ok doctor, s2)
      | none => (.error (.InvalidPayload "Could not update doctor"), s2)
  | none => (.error (.InvalidPayload "Could not update hospital"), s1)

/-- `add_doctor` (lib.rs lines 640-672): hospital password gate, payload
validation, then the two helpers. -/
def add_doctor (payload : DoctorPayload) (s : State) :
    Except Error Doctor × State :=
  match lookup s.hospitals payload.hospital_id with
  | some hospital =>
      if hospital.password ≠ payload.hospital_password then
        (.error (.Unauthorized
          "Hospital access unauthorized, password does not match, try again"), s)
      else if payload.valid = false then
        (.error (.InvalidPayload "payload validation failed"), s)
      else
        match add_doctor_to_storage payload s with
        | (.ok doctor, s1) => add_doctor_to_hospital doctor hospital s1
        | (.error e, s1) => (.error e, s1)
  | none =>
      (.error (.NotFound
        ("Hospital of id: " ++ toString payload.hospital_id ++ " not found")), s)

/-- `edit_doctor` (lib.rs lines 730-798): both passwords checked, then the
doctor's ID is pushed onto the hospital's `doctors_ids` (even when already
present) and the doctor is re-stored with the new name and hospital. -/
def edit_doctor (payload : EditDoctor) (s : State) :
    Except Error String × State :=
  match lookup s.doctors payload.doctor_id with
  | some doctor =>
      if doctor.password ≠ payload.doctor_password then
        (.error (.Unauthorized
          "Doctor Access unauthorized, password does not match, try again"), s)
      else
        match lookup s.hospitals payload.hospital_id with
        | some hospital =>
            if hospital.password ≠ payload.hospital_password then
              (.error (.Unauthorized
                "Hospital access unauthorized, password does not match, try again"), s)
            else
              let new_hospital :=
                { hospital with doctors_ids := hospital.doctors_ids ++ [doctor.id] }
              let oldH := lookup s.hospitals hospital.id
              let s1 := { s with hospitals := mapInsert s.hospitals hospital.id new_hospital }
              match oldH with
              | some _ =>
                  let new_doctor :=
                    { doctor with hospital_id := hospital.id, name := payload.name }
                  let oldD := lookup s1.doctors doctor.id
                  let s2 := { s1 with doctors := mapInsert s1.doctors doctor.id new_doctor }
                  match oldD with
                  | some _ =>
                      (.ok ("Succesfully assigned doctor " ++ payload.name ++
                        " to hospital: " ++ hospital.name ++ " "), s2)
                  | none => (.error (.InvalidPayload "Could not update doctor"), s2)
              | none => (.error (.InvalidPayload "Could not update hospital"), s1)
        | none =>
            (.error (.NotFound
              ("Hospital of id: " ++ toString payload.hospital_id ++ " not found")), s)
  | none =>
      (.error (.NotFound
        ("doctor of id: " ++ toString payload.doctor_id ++ " not found")), s)

/-- The mutating operation alphabet of the canister.  The query functions
(`get_hospital_by_id`, `get_patient`, `get_patient_info`, `get_doctor_by_id`,
and the listing queries) have type `... → State → Except Error _` and return
no state, so they cannot change the store and need no step. -/
inductive Op where
  | addHospital (p : HospitalPayload)
  | editHospital (p : EditHospitalPayload)
  | addPatient (p : PatientPayload)
  | editPatient (p : EditPatientPayload)
  | addDoctor (p : DoctorPayload)
  | editDoctor (p : EditDoctor)
  | assign (p : AddPatientToDoctor)
  | updateHistory (p : PatientHistoryUpdate) (now : Nat)
deriving Repr

/-- State transition of one operation (discarding the reply). -/
def step (op : Op) (s : State) : State :=
  match op with
  | .addHospital p => (add_hospital p s).2
  | .editHospital p => (edit_hospital p s).2
  | .addPatient p => (add_patient p s).2
  | .editPatient p => (edit_patient p s).2
  | .addDoctor p => (add_doctor p s).2
  | .editDoctor p => (edit_doctor p s).2
  | .assign p => (assign_patient_to_doctor p s).2
  | .updateHistory p now => (update_patient_history p now s).2

/-- Run a sequence of operations from a state. -/
def run (ops : List Op) (s : State) : State :=
  ops.foldl (fun s op => step op s) s

/-- A state is reachable when some operation sequence produces it from the
freshly initialised canister. -/
def Reachable (s : State) : Prop :=
  ∃ ops : List Op, run ops emptyState = s

/-- Doctor↔patient symmetry: for every stored doctor and stored patient, the
doctor's `patient_ids` contains the patient's id exactly when the patient's
`doctors_ids` contains the doctor's id. -/
def symInv (s : State) : Prop :=
  ∀ dk pk d p, lookup s.doctors dk = some d → lookup s.patients pk = some p →
    (p.id ∈ d.patient_ids ↔ d.id ∈ p.doctors_ids)

/-- Store well-formedness: every stored record carries its own key as `id`,
and every key is below the shared counter (IDs are only handed out by the
allocator). -/
def storeIdsOk {α : Type} (idOf : α → Nat) (m : List (Nat × α)) (c : Nat) : Prop :=
  ∀ k v, lookup m k = some v → idOf v = k ∧ k < c

/-- Every id in a stored doctor's `patient_ids` was allocated (below the
counter). -/
def doctorListsOk (m : List (Nat × Doctor)) (c : Nat) : Prop :=
  ∀ k d, lookup m k = some d → ∀ x ∈ d.patient_ids, x < c

/-- Every id in a stored patient's `doctors_ids` was allocated (below the
counter). -/
def patientListsOk (m : List (Nat × Patient)) (c : Nat) : Prop :=
  ∀ k p, lookup m k = some p → ∀ x ∈ p.doctors_ids, x < c

/-- The inductive invariant of the canister state. -/
def Inv (s : State) : Prop :=
  storeIdsOk Doctor.id s.doctors s.counter ∧
  storeIdsOk Patient.id s.patients s.counter ∧
  storeIdsOk Hospital.id s.hospitals s.counter ∧
  doctorListsOk s.doctors s.counter ∧
  patientListsOk s.patients s.counter ∧
  symInv s

/-- Sequentially run `update_patient_history` calls, checking that every one
of them returns `Ok`. -/
def historyCallsOk : List (PatientHistoryUpdate × Nat) → State → Bool
  | [], _ => true
  | c :: rest, s =>
      match update_patient_history c.1 c.2 s with
      | (.ok _, s1) => historyCallsOk rest s1
      | (.error _, _) => false

/-- The state after a sequence of `update_patient_history` calls. -/
def runHistoryCalls (calls : List (PatientHistoryUpdate × Nat)) (s : State) : State :=
  calls.foldl (fun s c => (update_patient_history c.1 c.2 s).2) s

/-- The concatenation, in call order, of the history entries the given calls
append (the acting doctor is resolved in `s`; `update_patient_history` never
modifies the doctor store, so this is the doctor resolved at call time). -/
def historySegments (s : State) : List (PatientHistoryUpdate × Nat) → String
  | [] => ""
  | c :: rest =>
      match lookup s.doctors c.1.doctor_id with
      | some d => historyEntry d c.2 c.1.new_history ++ historySegments s rest
      | none => historySegments s rest

/-- A create operation: any of the three entity-creating endpoints. -/
inductive CreateOp where
  | hosp (p : HospitalPayload)
  | pat (p : PatientPayload)
  | doc (p : DoctorPayload)
deriving Repr

/-- Run one create operation, projecting the created entity's id. -/
def doCreate (c : CreateOp) (s : State) : Except Error Nat × State :=
  match c with
  | .hosp p =>
      let r := add_hospital p s
      (r.1.map Hospital.id, r.2)
  | .pat p =>
      let r := add_patient p s
      (r.1.map Patient.id, r.2)
  | .doc p =>
      let r := add_doctor p s
      (r.1.map Doctor.id, r.2)

/-- The ids assigned by a sequence of create operations, provided every one
of them succeeds (`none` as soon as one fails). -/
def createdIds : List CreateOp → State → Option (List Nat)
  | [], _ => some []
  | c :: rest, s =>
      match doCreate c s with
      | (.ok i, s1) => (createdIds rest s1).map (fun ids => i :: ids)
      | (.error _, _) => none

/-- Concrete scenario payloads: one hospital, one doctor under it, one
patient, and the doctor↔patient assignment request. -/
def scHospital : HospitalPayload := ⟨"Hosp1", "Addr1", "hpw1", ""⟩

def scDoctor : DoctorPayload := ⟨"DocAA", 0, "dpw1", "hpw1"⟩

def scPatient : PatientPayload := ⟨"Alice", "cough and fever", "ppw1"⟩

def scAssign : AddPatientToDoctor := ⟨1, 2, "dpw1", "ppw1"⟩

/-- State after creating the hospital (id 0). -/
def scState1 : State := (add_hospital scHospital emptyState).2

/-- State after also creating the doctor (id 1) under hospital 0. -/
def scState2 : State := (add_doctor scDoctor scState1).2

/-- State after also creating the patient (id 2). -/
def scState3 : State := (add_patient scPatient scState2).2

/-- State after assigning patient 2 to doctor 1. -/
def scState4 : State := (assign_patient_to_doctor scAssign scState3).2

/-- State after assigning the same pair a second time. -/
def scState5 : State := (assign_patient_to_doctor scAssign scState4).2

/-- Hospital payload with a non-placeholder password, for exercising the
password masking of the public reads. -/
def scC2Hospital : HospitalPayload := ⟨"Hosp1", "Addr1", "secret", ""⟩

/-- Re-assignment request renaming doctor 1 into its own hospital 0. -/
def scEditDoctor : EditDoctor := ⟨"DocBB", 1, 0, "dpw1", "hpw1"⟩

/-- Rename request for hospital 0 with its correct password. -/
def scEditHospital : EditHospitalPayload := ⟨0, "NewNm", "hpw1"⟩

/-- A history update by doctor 1 on patient 2 with the correct password. -/
def scHistCall : PatientHistoryUpdate := ⟨1, 2, "dpw1", "flu shot"⟩

theorem lookup_mapInsert_self {α : Type} (m : List (Nat × α)) (k : Nat) (v : α) :
    lookup (mapInsert m k v) k = some v := by
  induction m with
  | nil => simp [mapInsert, lookup]
  | cons hd tl ih =>
      obtain ⟨k', v'⟩ := hd
      by_cases h : k' = k
      · subst h
        simp [mapInsert, lookup]
      · simp [mapInsert, lookup, h, ih]

theorem lookup_mapInsert_ne {α : Type} (m : List (Nat × α)) (k k' : Nat) (v : α)
    (h : k' ≠ k) : lookup (mapInsert m k v) k' = lookup m k' := by
  induction m with
  | nil => simp [mapInsert, lookup, Ne.symm h]
  | cons hd tl ih =>
      obtain ⟨k0, v0⟩ := hd
      by_cases h0 : k0 = k
      · subst h0
        simp [mapInsert, lookup, Ne.symm h]
      · by_cases h1 : k0 = k'
        · subst h1
          simp [mapInsert, lookup, h0]
        · simp [mapInsert, lookup, h0, h1, ih]

theorem lookup_mapInsert {α : Type} (m : List (Nat × α)) (k k' : Nat) (v : α) :
    lookup (mapInsert m k v) k' = if k = k' then some v else lookup m k' := by
  by_cases h : k = k'
  · subst h
    simp [lookup_mapInsert_self]
  · simp [h, lookup_mapInsert_ne m k k' v (Ne.symm h)]

theorem edit_hospital_state (pl : EditHospitalPayload) (s : State) :
    (edit_hospital pl s).2 = s ∨
    ∃ h, lookup s.hospitals pl.hospital_id = some h ∧
      (edit_hospital pl s).2 =
        { s with hospitals := mapInsert s.hospitals h.id { h with name := pl.name } } := by
  unfold edit_hospital
  cases hl : lookup s.hospitals pl.hospital_id with
  | none => left; rfl
  | some h =>
      by_cases hpw : h.password = pl.password
      · right
        refine ⟨h, rfl, ?_⟩
        simp only [hpw, ne_eq, not_true_eq_false, if_false]
        cases lookup s.hospitals h.id <;> rfl
      · left
        simp only [ne_eq, hpw, not_false_eq_true, if_true]

theorem edit_hospital_ok (pl : EditHospitalPayload) (s : State) (h' : Hospital)
    (s' : State) (hok : edit_hospital pl s = (.ok h', s')) :
    ∃ h, lookup s.hospitals pl.hospital_id = some h ∧ h.password = pl.password ∧
      h' = { h with name := pl.name } ∧
      s' = { s with hospitals := mapInsert s.hospitals h.id { h with name := pl.name } } := by
  unfold edit_hospital at hok
  split at hok
  case h_2 => simp at hok
  case h_1 h hl =>
    split at hok
    · simp at hok
    case isFalse hpw =>
      rw [not_not] at hpw
      dsimp only [] at hok
      split at hok
      · simp only [Prod.mk.injEq, Except.ok.injEq] at hok
        exact ⟨h, hl, hpw, hok.1.symm, hok.2.symm⟩
      · simp at hok

theorem edit_patient_state (pl : EditPatientPayload) (s : State) :
    (edit_patient pl s).2 = s ∨
    ∃ p, lookup s.patients pl.patient_id = some p ∧
      (edit_patient pl s).2 =
        { s with patients := mapInsert s.patients p.id { p with name := pl.name } } := by
  unfold edit_patient
  cases hl : lookup s.patients pl.patient_id with
  | none => left; rfl
  | some p =>
      by_cases hpw : p.password = pl.password
      · right
        refine ⟨p, rfl, ?_⟩
        simp only [hpw, ne_eq, not_true_eq_false, if_false]
        cases lookup s.patients p.id <;> rfl
      · left
        simp only [ne_eq, hpw, not_false_eq_true, if_true]

theorem edit_patient_ok (pl : EditPatientPayload) (s : State) (p' : Patient)
    (s' : State) (hok : edit_patient pl s = (.ok p', s')) :
    ∃ p, lookup s.patients pl.patient_id = some p ∧ p.password = pl.password ∧
      p' = { p with name := pl.name } ∧
      s' = { s with patients := mapInsert s.patients p.id { p with name := pl.name } } := by
  unfold edit_patient at hok
  split at hok
  case h_2 => simp at hok
  case h_1 p hl =>
    split at hok
    · simp at hok
    case isFalse hpw =>
      rw [not_not] at hpw
      dsimp only [] at hok
      split at hok
      · simp only [Prod.mk.injEq, Except.ok.injEq] at hok
        exact ⟨p, hl, hpw, hok.1.symm, hok.2.symm⟩
      · simp at hok

theorem edit_doctor_state (pl : EditDoctor) (s : State) :
    (edit_doctor pl s).2 = s ∨
    ∃ d h, lookup s.doctors pl.doctor_id = some d ∧
      lookup s.hospitals pl.hospital_id = some h ∧
      ((edit_doctor pl s).2 =
        { s with hospitals := mapInsert s.hospitals h.id ({ h with doctors_ids := h.doctors_ids ++ [d.id] }) } ∨
       (edit_doctor pl s).2 =
        { s with
            hospitals := mapInsert s.hospitals h.id ({ h with doctors_ids := h.doctors_ids ++ [d.id] }),
            doctors := mapInsert s.doctors d.id ({ d with hospital_id := h.id, name := pl.name }) }) := by
  unfold edit_doctor
  cases hld : lookup s.doctors pl.doctor_id with
  | none => left; rfl
  | some d =>
      by_cases hpwd : d.password = pl.doctor_password
      · cases hlh : lookup s.hospitals pl.hospital_id with
        | none =>
            left
            simp only [hpwd, ne_eq, not_true_eq_false, if_false]
        | some h =>
            by_cases hpwh : h.password = pl.hospital_password
            · right
              refine ⟨d, h, rfl, rfl, ?_⟩
              simp only [hpwd, hpwh, ne_eq, not_true_eq_false, if_false]
              cases lookup s.hospitals h.id
              · left; rfl
              · right
                cases lookup (mapInsert s.hospitals h.id
                  { h with doctors_ids := h.doctors_ids ++ [d.id] }) h.id <;>
                  cases lookup s.doctors d.id <;> rfl
            · left
              simp only [hpwd, ne_eq, not_true_eq_false, if_false, hpwh,
                not_false_eq_true, if_true]
      · left
        simp only [ne_eq, hpwd, not_false_eq_true, if_true]

theorem edit_doctor_ok (pl : EditDoctor) (s : State) (m : String)
    (s' : State) (hok : edit_doctor pl s = (.ok m, s')) :
    ∃ d h, lookup s.doctors pl.doctor_id = some d ∧
      d.password = pl.doctor_password ∧
      lookup s.hospitals pl.hospital_id = some h ∧
      h.password = pl.hospital_password ∧
      s' = { s with
        hospitals := mapInsert s.hospitals h.id ({ h with doctors_ids := h.doctors_ids ++ [d.id] }),
        doctors := mapInsert s.doctors d.id ({ d with hospital_id := h.id, name := pl.name }) } := by
  unfold edit_doctor at hok
  split at hok
  case h_2 => simp at hok
  case h_1 d hld =>
    split at hok
    · simp at hok
    case isFalse hpwd =>
      rw [not_not] at hpwd
      split at hok
      case h_2 => simp at hok
      case h_1 h hlh =>
        split at hok
        · simp at hok
        case isFalse hpwh =>
          rw [not_not] at hpwh
          dsimp only [] at hok
          split at hok
          case h_2 => simp at hok
          case h_1 =>
            split at hok
            · simp only [Prod.mk.injEq, Except.ok.injEq] at hok
              exact ⟨d, h, hld, hpwd, hlh, hpwh, hok.2.symm⟩
            · simp at hok

theorem mapInsert_mapInsert_self {α : Type} (m : List (Nat × α)) (k : Nat) (v v' : α) :
    mapInsert (mapInsert m k v) k v' = mapInsert m k v' := by
  induction m with
  | nil => simp [mapInsert]
  | cons hd tl ih =>
      obtain ⟨k0, v0⟩ := hd
      by_cases h0 : k0 = k
      · subst h0
        simp [mapInsert]
      · simp [mapInsert, h0, ih]

theorem add_hospital_state (pl : HospitalPayload) (s : State) :
    (add_hospital pl s).2 = s ∨
    (add_hospital pl s).2 = { s with counter := s.counter + 1, hospitals := mapInsert s.hospitals s.counter ⟨s.counter, pl.name, pl.address, pl.password, [], []⟩ } := by
  unfold add_hospital next_id
  by_cases hv : pl.valid = true
  · right
    simp only [hv, if_true]
    cases lookup s.hospitals s.counter <;> rfl
  · left
    simp [hv]

theorem add_hospital_ok (pl : HospitalPayload) (s : State) (h : Hospital)
    (s' : State) (hok : add_hospital pl s = (.ok h, s')) :
    pl.valid = true ∧ lookup s.hospitals s.counter = none ∧
      h = ⟨s.counter, pl.name, pl.address, pl.password, [], []⟩ ∧
      s' = { s with counter := s.counter + 1, hospitals := mapInsert s.hospitals s.counter ⟨s.counter, pl.name, pl.address, pl.password, [], []⟩ } := by
  unfold add_hospital next_id at hok
  split at hok
  case isFalse => simp at hok
  case isTrue hv =>
    dsimp only [] at hok
    split at hok
    · simp at hok
    case h_2 hold =>
      simp only [Prod.mk.injEq, Except.ok.injEq] at hok
      exact ⟨hv, hold, hok.1.symm, hok.2.symm⟩

theorem add_patient_state (pl : PatientPayload) (s : State) :
    (add_patient pl s).2 = s ∨
    (add_patient pl s).2 = { s with counter := s.counter + 1, patients := mapInsert s.patients s.counter ⟨s.counter, pl.name, pl.history, pl.password, [], []⟩ } := by
  unfold add_patient next_id
  by_cases hv : pl.valid = true
  · right
    simp only [hv, if_true]
    cases lookup s.patients s.counter <;> rfl
  · left
    simp [hv]

theorem add_patient_ok (pl : PatientPayload) (s : State) (p : Patient)
    (s' : State) (hok : add_patient pl s = (.ok p, s')) :
    pl.valid = true ∧ lookup s.patients s.counter = none ∧
      p = ⟨s.counter, pl.name, pl.history, pl.password, [], []⟩ ∧
      s' = { s with counter := s.counter + 1, patients := mapInsert s.patients s.counter ⟨s.counter, pl.name, pl.history, pl.password, [], []⟩ } := by
  unfold add_patient next_id at hok
  split at hok
  case isFalse => simp at hok
  case isTrue hv =>
    dsimp only [] at hok
    split at hok
    · simp at hok
    case h_2 hold =>
      simp only [Prod.mk.injEq, Except.ok.injEq] at hok
      exact ⟨hv, hold, hok.1.symm, hok.2.symm⟩

theorem update_patient_history_state (pl : PatientHistoryUpdate) (now : Nat) (s : State) :
    (update_patient_history pl now s).2 = s ∨
    ∃ d p, lookup s.doctors pl.doctor_id = some d ∧
      lookup s.patients pl.patient_id = some p ∧
      (update_patient_history pl now s).2 =
        { s with patients := mapInsert s.patients p.id ({ p with history := p.history ++ historyEntry d now pl.new_history }) } := by
  unfold update_patient_history
  cases hld : lookup s.doctors pl.doctor_id with
  | none => left; rfl
  | some d =>
      by_cases hpw : d.password = pl.doctor_password
      · cases hlp : lookup s.patients pl.patient_id with
        | none =>
            left
            simp only [hpw, ne_eq, not_true_eq_false, if_false]
        | some p =>
            by_cases hrel : p.doctors_ids.contains d.id = false
            · left
              simp only [hpw, ne_eq, not_true_eq_false, if_false, hrel, if_true]
            · right
              refine ⟨d, p, rfl, rfl, ?_⟩
              simp only [hpw, ne_eq, not_true_eq_false, if_false, hrel]
              cases lookup s.patients p.id <;> rfl
      · left
        simp only [ne_eq, hpw, not_false_eq_true, if_true]

theorem update_patient_history_ok (pl : PatientHistoryUpdate) (now : Nat) (s : State)
    (m : String) (s' : State)
    (hok : update_patient_history pl now s = (.ok m, s')) :
    ∃ d p, lookup s.doctors pl.doctor_id = some d ∧
      d.password = pl.doctor_password ∧
      lookup s.patients pl.patient_id = some p ∧
      p.doctors_ids.contains d.id = true ∧
      s' = { s with patients := mapInsert s.patients p.id ({ p with history := p.history ++ historyEntry d now pl.new_history }) } := by
  unfold update_patient_history at hok
  split at hok
  case h_2 => simp at hok
  case h_1 d hld =>
    split at hok
    · simp at hok
    case isFalse hpw =>
      rw [not_not] at hpw
      split at hok
      case h_2 => simp at hok
      case h_1 p hlp =>
        split at hok
        · simp at hok
        case isFalse hrel =>
          rw [Bool.not_eq_false] at hrel
          dsimp only [] at hok
          split at hok
          · simp only [Prod.mk.injEq, Except.ok.injEq] at hok
            exact ⟨d, p, hld, hpw, hlp, hrel, hok.2.symm⟩
          · simp at hok

theorem add_patient_to_hospital_spec (hid pid : Nat) (s : State) :
    (lookup s.hospitals hid = none ∧
      add_patient_to_hospital hid pid s =
        (.error (.NotFound ("hospital of id: " ++ toString hid ++ " not found")), s)) ∨
    ∃ h, lookup s.hospitals hid = some h ∧
      ((add_patient_to_hospital hid pid s).2 =
        { s with hospitals := mapInsert s.hospitals h.id ({ h with patients_ids := h.patients_ids ++ [pid] }) } ∧
       ((add_patient_to_hospital hid pid s).1 = .ok () ∨
        (add_patient_to_hospital hid pid s).1 = .error (.InvalidPayload "Could not update hospital"))) := by
  unfold add_patient_to_hospital
  cases hl : lookup s.hospitals hid with
  | none => left; exact ⟨rfl, rfl⟩
  | some h =>
      right
      refine ⟨h, rfl, ?_⟩
      dsimp only []
      cases lookup s.hospitals h.id
      · exact ⟨rfl, Or.inr rfl⟩
      · exact ⟨rfl, Or.inl rfl⟩

theorem add_doctor_to_storage_spec (pl : DoctorPayload) (s : State) :
    (add_doctor_to_storage pl s).2 = { s with counter := s.counter + 1, doctors := mapInsert s.doctors s.counter ⟨s.counter, pl.name, pl.password, pl.hospital_id, []⟩ } ∧
    ((lookup s.doctors s.counter = none ∧
      (add_doctor_to_storage pl s).1 = .ok ⟨s.counter, pl.name, pl.password, pl.hospital_id, []⟩) ∨
     (add_doctor_to_storage pl s).1 =
       .error (.InvalidPayload ("Could not add doctor name: " ++ pl.name))) := by
  unfold add_doctor_to_storage next_id
  dsimp only []
  cases hold : lookup s.doctors s.counter
  · exact ⟨rfl, Or.inl ⟨rfl, rfl⟩⟩
  · exact ⟨rfl, Or.inr rfl⟩

theorem add_doctor_to_hospital_spec (d : Doctor) (h : Hospital) (s : State) :
    ((add_doctor_to_hospital d h s).2 = { s with hospitals := mapInsert s.hospitals h.id ({ h with doctors_ids := h.doctors_ids ++ [d.id] }) } ∧ lookup s.hospitals h.id = none) ∨
    ((add_doctor_to_hospital d h s).2 = { s with hospitals := mapInsert s.hospitals h.id ({ h with doctors_ids := h.doctors_ids ++ [d.id] }), doctors := mapInsert s.doctors d.id ({ d with hospital_id := h.id }) } ∧
     ((add_doctor_to_hospital d h s).1 = .ok d ∨
      (add_doctor_to_hospital d h s).1 = .error (.InvalidPayload "Could not update doctor"))) := by
  unfold add_doctor_to_hospital
  dsimp only []
  cases hH : lookup s.hospitals h.id
  · exact Or.inl ⟨rfl, rfl⟩
  · right
    cases lookup s.doctors d.id
    · exact ⟨rfl, Or.inr rfl⟩
    · exact ⟨rfl, Or.inl rfl⟩

theorem add_doctor_to_hospital_ok (d0 : Doctor) (h : Hospital) (s : State)
    (d : Doctor) (s' : State) (hok : add_doctor_to_hospital d0 h s = (.ok d, s')) :
    d = d0 ∧
    s' = { s with hospitals := mapInsert s.hospitals h.id ({ h with doctors_ids := h.doctors_ids ++ [d0.id] }), doctors := mapInsert s.doctors d0.id ({ d0 with hospital_id := h.id }) } := by
  unfold add_doctor_to_hospital at hok
  dsimp only [] at hok
  split at hok
  case h_2 => simp at hok
  case h_1 =>
    split at hok
    · simp only [Prod.mk.injEq, Except.ok.injEq] at hok
      exact ⟨hok.1.symm, hok.2.symm⟩
    · simp at hok

theorem add_doctor_state (pl : DoctorPayload) (s : State) :
    (add_doctor pl s).2 = s ∨
    ∃ h, lookup s.hospitals pl.hospital_id = some h ∧
      ((add_doctor pl s).2 = { s with counter := s.counter + 1, doctors := mapInsert s.doctors s.counter ⟨s.counter, pl.name, pl.password, pl.hospital_id, []⟩ } ∨
       (add_doctor pl s).2 = { s with counter := s.counter + 1, doctors := mapInsert s.doctors s.counter ⟨s.counter, pl.name, pl.password, pl.hospital_id, []⟩, hospitals := mapInsert s.hospitals h.id ({ h with doctors_ids := h.doctors_ids ++ [s.counter] }) } ∨
       (add_doctor pl s).2 = { s with counter := s.counter + 1, doctors := mapInsert s.doctors s.counter ⟨s.counter, pl.name, pl.password, h.id, []⟩, hospitals := mapInsert s.hospitals h.id ({ h with doctors_ids := h.doctors_ids ++ [s.counter] }) }) := by
  unfold add_doctor
  cases hlh : lookup s.hospitals pl.hospital_id with
  | none => left; rfl
  | some h =>
      dsimp only []
      by_cases hpw : h.password = pl.hospital_password
      · rw [if_neg (not_not_intro hpw)]
        by_cases hval : pl.valid = false
        · left
          rw [if_pos hval]
        · rw [if_neg hval]
          right
          refine ⟨h, rfl, ?_⟩
          obtain ⟨hst, hres⟩ := add_doctor_to_storage_spec pl s
          rcases hres with ⟨hnone, hok1⟩ | herr1
          · have hpair : add_doctor_to_storage pl s = (Except.ok (Doctor.mk s.counter pl.name pl.password pl.hospital_id []), { s with counter := s.counter + 1, doctors := mapInsert s.doctors s.counter ⟨s.counter, pl.name, pl.password, pl.hospital_id, []⟩ }) := Prod.ext_iff.mpr ⟨hok1, hst⟩
            rw [hpair]
            dsimp only []
            rcases add_doctor_to_hospital_spec
              ⟨s.counter, pl.name, pl.password, pl.hospital_id, []⟩ h
              { s with counter := s.counter + 1, doctors := mapInsert s.doctors s.counter ⟨s.counter, pl.name, pl.password, pl.hospital_id, []⟩ }
              with ⟨h2, _⟩ | ⟨h2, _⟩
            · right; left
              rw [h2]
            · right; right
              rw [h2]
              dsimp only []
              rw [mapInsert_mapInsert_self]
          · have hpair : add_doctor_to_storage pl s = (Except.error (Error.InvalidPayload ("Could not add doctor name: " ++ pl.name)), { s with counter := s.counter + 1, doctors := mapInsert s.doctors s.counter ⟨s.counter, pl.name, pl.password, pl.hospital_id, []⟩ }) := Prod.ext_iff.mpr ⟨herr1, hst⟩
            rw [hpair]
            left
            rfl
      · left
        rw [if_pos hpw]

theorem add_doctor_ok (pl : DoctorPayload) (s : State) (d : Doctor) (s' : State)
    (hok : add_doctor pl s = (.ok d, s')) :
    ∃ h, lookup s.hospitals pl.hospital_id = some h ∧
      h.password = pl.hospital_password ∧ pl.valid = true ∧
      lookup s.doctors s.counter = none ∧
      d = ⟨s.counter, pl.name, pl.password, pl.hospital_id, []⟩ ∧
      s' = { s with counter := s.counter + 1, hospitals := mapInsert s.hospitals h.id ({ h with doctors_ids := h.doctors_ids ++ [s.counter] }), doctors := mapInsert s.doctors s.counter ⟨s.counter, pl.name, pl.password, h.id, []⟩ } := by
  unfold add_doctor at hok
  split at hok
  case h_2 => simp at hok
  case h_1 h hlh =>
    split at hok
    · simp at hok
    case isFalse hpw =>
      rw [not_not] at hpw
      split at hok
      case isTrue => simp at hok
      case isFalse hval =>
        rw [Bool.not_eq_false] at hval
        obtain ⟨hst, hres⟩ := add_doctor_to_storage_spec pl s
        rcases hres with ⟨hnone, hok1⟩ | herr1
        · have hpair : add_doctor_to_storage pl s = (Except.ok (Doctor.mk s.counter pl.name pl.password pl.hospital_id []), { s with counter := s.counter + 1, doctors := mapInsert s.doctors s.counter ⟨s.counter, pl.name, pl.password, pl.hospital_id, []⟩ }) := Prod.ext_iff.mpr ⟨hok1, hst⟩
          rw [hpair] at hok
          dsimp only [] at hok
          obtain ⟨hd, hs'⟩ := add_doctor_to_hospital_ok _ h _ d s' hok
          refine ⟨h, hlh, hpw, hval, hnone, hd, ?_⟩
          rw [hs']
          dsimp only []
          rw [mapInsert_mapInsert_self]
        · have hpair : add_doctor_to_storage pl s = (Except.error (Error.InvalidPayload ("Could not add doctor name: " ++ pl.name)), { s with counter := s.counter + 1, doctors := mapInsert s.doctors s.counter ⟨s.counter, pl.name, pl.password, pl.hospital_id, []⟩ }) := Prod.ext_iff.mpr ⟨herr1, hst⟩
          rw [hpair] at hok
          dsimp only [] at hok
          simp at hok

theorem assign_state (pl : AddPatientToDoctor) (s : State) :
    (assign_patient_to_doctor pl s).2 = s ∨
    ∃ d p h, lookup s.doctors pl.doctor_id = some d ∧
      lookup s.patients pl.patient_id = some p ∧
      lookup s.hospitals d.hospital_id = some h ∧
      ((assign_patient_to_doctor pl s).2 = { s with hospitals := mapInsert s.hospitals h.id ({ h with patients_ids := h.patients_ids ++ [p.id] }) } ∨
       (lookup s.doctors d.id = none ∧
        (assign_patient_to_doctor pl s).2 = { s with hospitals := mapInsert s.hospitals h.id ({ h with patients_ids := h.patients_ids ++ [p.id] }), doctors := mapInsert s.doctors d.id ({ d with patient_ids := d.patient_ids ++ [p.id] }) }) ∨
       (assign_patient_to_doctor pl s).2 = { s with hospitals := mapInsert s.hospitals h.id ({ h with patients_ids := h.patients_ids ++ [p.id] }), doctors := mapInsert s.doctors d.id ({ d with patient_ids := d.patient_ids ++ [p.id] }), patients := mapInsert s.patients p.id ({ p with doctors_ids := p.doctors_ids ++ [d.id] }) }) := by
  unfold assign_patient_to_doctor
  cases hld : lookup s.doctors pl.doctor_id with
  | none => left; rfl
  | some d =>
      dsimp only []
      by_cases hpwd : d.password = pl.doctor_password
      · rw [if_neg (not_not_intro hpwd)]
        cases hlp : lookup s.patients pl.patient_id with
        | none => left; rfl
        | some p =>
            dsimp only []
            by_cases hpwp : p.password = pl.patient_password
            · rw [if_neg (not_not_intro hpwp)]
              rcases add_patient_to_hospital_spec d.hospital_id p.id s with
                ⟨hnone, heq⟩ | ⟨h, hlh, hst, hres⟩
              · rw [heq]
                left; rfl
              · right
                refine ⟨d, p, h, rfl, rfl, hlh, ?_⟩
                rcases hres with hok1 | herr1
                · have hpair : add_patient_to_hospital d.hospital_id p.id s = (Except.ok (), { s with hospitals := mapInsert s.hospitals h.id ({ h with patients_ids := h.patients_ids ++ [p.id] }) }) := Prod.ext_iff.mpr ⟨hok1, hst⟩
                  rw [hpair]
                  dsimp only []
                  cases hD : lookup s.doctors d.id with
                  | none => right; left; exact ⟨rfl, rfl⟩
                  | some d0 =>
                      right; right
                      dsimp only []
                      cases lookup s.patients p.id <;> rfl
                · have hpair : add_patient_to_hospital d.hospital_id p.id s = (Except.error (Error.InvalidPayload "Could not update hospital"), { s with hospitals := mapInsert s.hospitals h.id ({ h with patients_ids := h.patients_ids ++ [p.id] }) }) := Prod.ext_iff.mpr ⟨herr1, hst⟩
                  rw [hpair]
                  left; rfl
            · left
              rw [if_pos hpwp]
      · left
        rw [if_pos hpwd]

theorem assign_ok (pl : AddPatientToDoctor) (s : State) (m : String) (s' : State)
    (hok : assign_patient_to_doctor pl s = (.ok m, s')) :
    ∃ d p h, lookup s.doctors pl.doctor_id = some d ∧
      d.password = pl.doctor_password ∧
      lookup s.patients pl.patient_id = some p ∧
      p.password = pl.patient_password ∧
      lookup s.hospitals d.hospital_id = some h ∧
      s' = { s with hospitals := mapInsert s.hospitals h.id ({ h with patients_ids := h.patients_ids ++ [p.id] }), doctors := mapInsert s.doctors d.id ({ d with patient_ids := d.patient_ids ++ [p.id] }), patients := mapInsert s.patients p.id ({ p with doctors_ids := p.doctors_ids ++ [d.id] }) } := by
  unfold assign_patient_to_doctor at hok
  split at hok
  case h_2 => simp at hok
  case h_1 d hld =>
    split at hok
    · simp at hok
    case isFalse hpwd =>
      rw [not_not] at hpwd
      split at hok
      case h_2 => simp at hok
      case h_1 p hlp =>
        split at hok
        · simp at hok
        case isFalse hpwp =>
          rw [not_not] at hpwp
          rcases add_patient_to_hospital_spec d.hospital_id p.id s with
            ⟨hnone, heq⟩ | ⟨h, hlh, hst, hres⟩
          · rw [heq] at hok
            dsimp only [] at hok
            simp at hok
          · rcases hres with hok1 | herr1
            · have hpair : add_patient_to_hospital d.hospital_id p.id s = (Except.ok (), { s with hospitals := mapInsert s.hospitals h.id ({ h with patients_ids := h.patients_ids ++ [p.id] }) }) := Prod.ext_iff.mpr ⟨hok1, hst⟩
              rw [hpair] at hok
              dsimp only [] at hok
              split at hok
              case h_2 => simp at hok
              case h_1 =>
                split at hok
                · simp only [Prod.mk.injEq, Except.ok.injEq] at hok
                  exact ⟨d, p, h, hld, hpwd, hlp, hpwp, hlh, hok.2.symm⟩
                · simp at hok
            · have hpair : add_patient_to_hospital d.hospital_id p.id s = (Except.error (Error.InvalidPayload "Could not update hospital"), { s with hospitals := mapInsert s.hospitals h.id ({ h with patients_ids := h.patients_ids ++ [p.id] }) }) := Prod.ext_iff.mpr ⟨herr1, hst⟩
              rw [hpair] at hok
              dsimp only [] at hok
              simp at hok

theorem storeIdsOk_mono {α : Type} (idOf : α → Nat) (m : List (Nat × α))
    (c c' : Nat) (hcc : c ≤ c') (hm : storeIdsOk idOf m c) :
    storeIdsOk idOf m c' := by
  intro k v hk
  obtain ⟨h1, h2⟩ := hm k v hk
  exact ⟨h1, lt_of_lt_of_le h2 hcc⟩

theorem storeIdsOk_insert {α : Type} (idOf : α → Nat) (m : List (Nat × α))
    (c k : Nat) (v : α) (hm : storeIdsOk idOf m c) (hid : idOf v = k)
    (hk : k < c) : storeIdsOk idOf (mapInsert m k v) c := by
  intro k' v' hk'
  rw [lookup_mapInsert] at hk'
  by_cases he : k = k'
  · simp only [he, if_true, Option.some.injEq] at hk'
    subst hk'
    exact ⟨he ▸ hid, he ▸ hk⟩
  · simp only [he, if_false] at hk'
    exact hm k' v' hk'

theorem doctorListsOk_mono (m : List (Nat × Doctor)) (c c' : Nat)
    (hcc : c ≤ c') (hm : doctorListsOk m c) : doctorListsOk m c' := by
  intro k d hk x hx
  exact lt_of_lt_of_le (hm k d hk x hx) hcc

theorem doctorListsOk_insert (m : List (Nat × Doctor)) (c k : Nat) (d : Doctor)
    (hm : doctorListsOk m c) (hd : ∀ x ∈ d.patient_ids, x < c) :
    doctorListsOk (mapInsert m k d) c := by
  intro k' d' hk' x hx
  rw [lookup_mapInsert] at hk'
  by_cases he : k = k'
  · simp only [he, if_true, Option.some.injEq] at hk'
    subst hk'
    exact hd x hx
  · simp only [he, if_false] at hk'
    exact hm k' d' hk' x hx

theorem patientListsOk_mono (m : List (Nat × Patient)) (c c' : Nat)
    (hcc : c ≤ c') (hm : patientListsOk m c) : patientListsOk m c' := by
  intro k p hk x hx
  exact lt_of_lt_of_le (hm k p hk x hx) hcc

theorem patientListsOk_insert (m : List (Nat × Patient)) (c k : Nat) (p : Patient)
    (hm : patientListsOk m c) (hp : ∀ x ∈ p.doctors_ids, x < c) :
    patientListsOk (mapInsert m k p) c := by
  intro k' p' hk' x hx
  rw [lookup_mapInsert] at hk'
  by_cases he : k = k'
  · simp only [he, if_true, Option.some.injEq] at hk'
    subst hk'
    exact hp x hx
  · simp only [he, if_false] at hk'
    exact hm k' p' hk' x hx

theorem symInv_patient_samelists (s : State) (pk0 : Nat) (p0 p1 : Patient)
    (hs : symInv s) (hl : lookup s.patients pk0 = some p0)
    (hid : p1.id = p0.id) (hlists : p1.doctors_ids = p0.doctors_ids) :
    symInv { s with patients := mapInsert s.patients pk0 p1 } := by
  intro dk pk d p hd hp
  simp only at hd hp
  rw [lookup_mapInsert] at hp
  by_cases he : pk0 = pk
  · simp only [he, if_true, Option.some.injEq] at hp
    subst hp
    rw [hid, hlists]
    exact hs dk pk d p0 hd (he ▸ hl)
  · simp only [he, if_false] at hp
    exact hs dk pk d p hd hp

theorem symInv_doctor_samelists (s : State) (dk0 : Nat) (d0 d1 : Doctor)
    (hs : symInv s) (hl : lookup s.doctors dk0 = some d0)
    (hid : d1.id = d0.id) (hlists : d1.patient_ids = d0.patient_ids) :
    symInv { s with doctors := mapInsert s.doctors dk0 d1 } := by
  intro dk pk d p hd hp
  simp only at hd hp
  rw [lookup_mapInsert] at hd
  by_cases he : dk0 = dk
  · simp only [he, if_true, Option.some.injEq] at hd
    subst hd
    rw [hid, hlists]
    exact hs dk pk d0 p (he ▸ hl) hp
  · simp only [he, if_false] at hd
    exact hs dk pk d p hd hp

theorem symInv_fresh_patient (s : State) (p1 : Patient)
    (hs : symInv s) (hDL : doctorListsOk s.doctors s.counter)
    (hid : p1.id = s.counter) (hlists : p1.doctors_ids = []) :
    symInv { s with patients := mapInsert s.patients s.counter p1 } := by
  intro dk pk d p hd hp
  simp only at hd hp
  rw [lookup_mapInsert] at hp
  by_cases he : s.counter = pk
  · simp only [he, if_true, Option.some.injEq] at hp
    subst hp
    rw [hid, hlists]
    constructor
    · intro hmem
      exact absurd (hDL dk d hd s.counter hmem) (lt_irrefl s.counter)
    · intro hmem
      simp at hmem
  · simp only [he, if_false] at hp
    exact hs dk pk d p hd hp

theorem symInv_fresh_doctor (s : State) (d1 : Doctor)
    (hs : symInv s) (hPL : patientListsOk s.patients s.counter)
    (hid : d1.id = s.counter) (hlists : d1.patient_ids = []) :
    symInv { s with doctors := mapInsert s.doctors s.counter d1 } := by
  intro dk pk d p hd hp
  simp only at hd hp
  rw [lookup_mapInsert] at hd
  by_cases he : s.counter = dk
  · simp only [he, if_true, Option.some.injEq] at hd
    subst hd
    rw [hid, hlists]
    constructor
    · intro hmem
      simp at hmem
    · intro hmem
      exact absurd (hPL pk p hp s.counter hmem) (lt_irrefl s.counter)
  · simp only [he, if_false] at hd
    exact hs dk pk d p hd hp

theorem Inv_empty : Inv emptyState := by
  refine ⟨?_, ?_, ?_, ?_, ?_, ?_⟩
  · intro k v hk; simp [lookup, emptyState] at hk
  · intro k v hk; simp [lookup, emptyState] at hk
  · intro k v hk; simp [lookup, emptyState] at hk
  · intro k v hk; simp [lookup, emptyState] at hk
  · intro k v hk; simp [lookup, emptyState] at hk
  · intro dk pk d p hd; simp [lookup, emptyState] at hd

theorem Inv_add_hospital (pl : HospitalPayload) (s : State) (hinv : Inv s) :
    Inv (add_hospital pl s).2 := by
  obtain ⟨hD, hP, hH, hDL, hPL, hSym⟩ := hinv
  rcases add_hospital_state pl s with heq | heq <;> rw [heq]
  · exact ⟨hD, hP, hH, hDL, hPL, hSym⟩
  · refine ⟨?_, ?_, ?_, ?_, ?_, ?_⟩
    · exact storeIdsOk_mono _ _ _ _ (Nat.le_succ _) hD
    · exact storeIdsOk_mono _ _ _ _ (Nat.le_succ _) hP
    · exact storeIdsOk_insert _ _ _ _ _
        (storeIdsOk_mono _ _ _ _ (Nat.le_succ _) hH) rfl (Nat.lt_succ_self _)
    · exact doctorListsOk_mono _ _ _ (Nat.le_succ _) hDL
    · exact patientListsOk_mono _ _ _ (Nat.le_succ _) hPL
    · exact hSym

theorem Inv_edit_hospital (pl : EditHospitalPayload) (s : State) (hinv : Inv s) :
    Inv (edit_hospital pl s).2 := by
  obtain ⟨hD, hP, hH, hDL, hPL, hSym⟩ := hinv
  rcases edit_hospital_state pl s with heq | ⟨h, hl, heq⟩ <;> rw [heq]
  · exact ⟨hD, hP, hH, hDL, hPL, hSym⟩
  · obtain ⟨hid, hlt⟩ := hH _ _ hl
    refine ⟨hD, hP, ?_, hDL, hPL, hSym⟩
    exact storeIdsOk_insert _ _ _ _ _ hH rfl (by rw [hid]; exact hlt)

theorem Inv_add_patient (pl : PatientPayload) (s : State) (hinv : Inv s) :
    Inv (add_patient pl s).2 := by
  obtain ⟨hD, hP, hH, hDL, hPL, hSym⟩ := hinv
  rcases add_patient_state pl s with heq | heq <;> rw [heq]
  · exact ⟨hD, hP, hH, hDL, hPL, hSym⟩
  · refine ⟨?_, ?_, ?_, ?_, ?_, ?_⟩
    · exact storeIdsOk_mono _ _ _ _ (Nat.le_succ _) hD
    · exact storeIdsOk_insert _ _ _ _ _
        (storeIdsOk_mono _ _ _ _ (Nat.le_succ _) hP) rfl (Nat.lt_succ_self _)
    · exact storeIdsOk_mono _ _ _ _ (Nat.le_succ _) hH
    · exact doctorListsOk_mono _ _ _ (Nat.le_succ _) hDL
    · refine patientListsOk_insert _ _ _ _
        (patientListsOk_mono _ _ _ (Nat.le_succ _) hPL) ?_
      intro x hx
      simp at hx
    · exact symInv_fresh_patient s _ hSym hDL rfl rfl

theorem Inv_edit_patient (pl : EditPatientPayload) (s : State) (hinv : Inv s) :
    Inv (edit_patient pl s).2 := by
  obtain ⟨hD, hP, hH, hDL, hPL, hSym⟩ := hinv
  rcases edit_patient_state pl s with heq | ⟨p, hl, heq⟩ <;> rw [heq]
  · exact ⟨hD, hP, hH, hDL, hPL, hSym⟩
  · obtain ⟨hid, hlt⟩ := hP _ _ hl
    have hl0 : lookup s.patients p.id = some p := by rw [hid]; exact hl
    refine ⟨hD, ?_, hH, hDL, ?_, ?_⟩
    · exact storeIdsOk_insert _ _ _ _ _ hP rfl (by rw [hid]; exact hlt)
    · exact patientListsOk_insert _ _ _ _ hPL (fun x hx => hPL _ p hl x hx)
    · exact symInv_patient_samelists s p.id p _ hSym hl0 rfl rfl

theorem Inv_update_history (pl : PatientHistoryUpdate) (now : Nat) (s : State)
    (hinv : Inv s) : Inv (update_patient_history pl now s).2 := by
  obtain ⟨hD, hP, hH, hDL, hPL, hSym⟩ := hinv
  rcases update_patient_history_state pl now s with heq | ⟨d, p, _, hlp, heq⟩ <;> rw [heq]
  · exact ⟨hD, hP, hH, hDL, hPL, hSym⟩
  · obtain ⟨hid, hlt⟩ := hP _ _ hlp
    have hl0 : lookup s.patients p.id = some p := by rw [hid]; exact hlp
    refine ⟨hD, ?_, hH, hDL, ?_, ?_⟩
    · exact storeIdsOk_insert _ _ _ _ _ hP rfl (by rw [hid]; exact hlt)
    · exact patientListsOk_insert _ _ _ _ hPL (fun x hx => hPL _ p hlp x hx)
    · exact symInv_patient_samelists s p.id p _ hSym hl0 rfl rfl

theorem Inv_edit_doctor (pl : EditDoctor) (s : State) (hinv : Inv s) :
    Inv (edit_doctor pl s).2 := by
  obtain ⟨hD, hP, hH, hDL, hPL, hSym⟩ := hinv
  rcases edit_doctor_state pl s with heq | ⟨d, h, hld, hlh, heq | heq⟩ <;> rw [heq]
  · exact ⟨hD, hP, hH, hDL, hPL, hSym⟩
  · obtain ⟨hidh, hlth⟩ := hH _ _ hlh
    refine ⟨hD, hP, ?_, hDL, hPL, hSym⟩
    exact storeIdsOk_insert _ _ _ _ _ hH rfl (by rw [hidh]; exact hlth)
  · obtain ⟨hidh, hlth⟩ := hH _ _ hlh
    obtain ⟨hidd, hltd⟩ := hD _ _ hld
    have hld0 : lookup s.doctors d.id = some d := by rw [hidd]; exact hld
    refine ⟨?_, hP, ?_, ?_, hPL, ?_⟩
    · exact storeIdsOk_insert _ _ _ _ _ hD rfl (by rw [hidd]; exact hltd)
    · exact storeIdsOk_insert _ _ _ _ _ hH rfl (by rw [hidh]; exact hlth)
    · exact doctorListsOk_insert _ _ _ _ hDL (fun x hx => hDL _ d hld x hx)
    · exact symInv_doctor_samelists s d.id d _ hSym hld0 rfl rfl

theorem Inv_add_doctor (pl : DoctorPayload) (s : State) (hinv : Inv s) :
    Inv (add_doctor pl s).2 := by
  obtain ⟨hD, hP, hH, hDL, hPL, hSym⟩ := hinv
  rcases add_doctor_state pl s with heq | ⟨h, hlh, heq | heq | heq⟩ <;> rw [heq]
  · exact ⟨hD, hP, hH, hDL, hPL, hSym⟩
  · refine ⟨?_, ?_, ?_, ?_, ?_, ?_⟩
    · exact storeIdsOk_insert _ _ _ _ _
        (storeIdsOk_mono _ _ _ _ (Nat.le_succ _) hD) rfl (Nat.lt_succ_self _)
    · exact storeIdsOk_mono _ _ _ _ (Nat.le_succ _) hP
    · exact storeIdsOk_mono _ _ _ _ (Nat.le_succ _) hH
    · refine doctorListsOk_insert _ _ _ _
        (doctorListsOk_mono _ _ _ (Nat.le_succ _) hDL) ?_
      intro x hx
      simp at hx
    · exact patientListsOk_mono _ _ _ (Nat.le_succ _) hPL
    · exact symInv_fresh_doctor s _ hSym hPL rfl rfl
  · obtain ⟨hidh, hlth⟩ := hH _ _ hlh
    refine ⟨?_, ?_, ?_, ?_, ?_, ?_⟩
    · exact storeIdsOk_insert _ _ _ _ _
        (storeIdsOk_mono _ _ _ _ (Nat.le_succ _) hD) rfl (Nat.lt_succ_self _)
    · exact storeIdsOk_mono _ _ _ _ (Nat.le_succ _) hP
    · exact storeIdsOk_insert _ _ _ _ _
        (storeIdsOk_mono _ _ _ _ (Nat.le_succ _) hH) rfl
        (by rw [hidh]; exact Nat.lt_succ_of_lt hlth)
    · refine doctorListsOk_insert _ _ _ _
        (doctorListsOk_mono _ _ _ (Nat.le_succ _) hDL) ?_
      intro x hx
      simp at hx
    · exact patientListsOk_mono _ _ _ (Nat.le_succ _) hPL
    · exact symInv_fresh_doctor s _ hSym hPL rfl rfl
  · obtain ⟨hidh, hlth⟩ := hH _ _ hlh
    refine ⟨?_, ?_, ?_, ?_, ?_, ?_⟩
    · exact storeIdsOk_insert _ _ _ _ _
        (storeIdsOk_mono _ _ _ _ (Nat.le_succ _) hD) rfl (Nat.lt_succ_self _)
    · exact storeIdsOk_mono _ _ _ _ (Nat.le_succ _) hP
    · exact storeIdsOk_insert _ _ _ _ _
        (storeIdsOk_mono _ _ _ _ (Nat.le_succ _) hH) rfl
        (by rw [hidh]; exact Nat.lt_succ_of_lt hlth)
    · refine doctorListsOk_insert _ _ _ _
        (doctorListsOk_mono _ _ _ (Nat.le_succ _) hDL) ?_
      intro x hx
      simp at hx
    · exact patientListsOk_mono _ _ _ (Nat.le_succ _) hPL
    · exact symInv_fresh_doctor s _ hSym hPL rfl rfl

theorem Inv_assign (pl : AddPatientToDoctor) (s : State) (hinv : Inv s) :
    Inv (assign_patient_to_doctor pl s).2 := by
  obtain ⟨hD, hP, hH, hDL, hPL, hSym⟩ := hinv
  rcases assign_state pl s with heq | ⟨d, p, h, hld, hlp, hlh, heq | ⟨hnone, heq⟩ | heq⟩
  · rw [heq]; exact ⟨hD, hP, hH, hDL, hPL, hSym⟩
  · rw [heq]
    obtain ⟨hidh, hlth⟩ := hH _ _ hlh
    refine ⟨hD, hP, ?_, hDL, hPL, hSym⟩
    exact storeIdsOk_insert _ _ _ _ _ hH rfl (by rw [hidh]; exact hlth)
  · obtain ⟨hidd, _⟩ := hD _ _ hld
    rw [hidd, hld] at hnone
    exact absurd hnone (by simp)
  · rw [heq]
    obtain ⟨hidd, hltd⟩ := hD _ _ hld
    obtain ⟨hidp, hltp⟩ := hP _ _ hlp
    obtain ⟨hidh, hlth⟩ := hH _ _ hlh
    refine ⟨?_, ?_, ?_, ?_, ?_, ?_⟩
    · exact storeIdsOk_insert _ _ _ _ _ hD rfl (by rw [hidd]; exact hltd)
    · exact storeIdsOk_insert _ _ _ _ _ hP rfl (by rw [hidp]; exact hltp)
    · exact storeIdsOk_insert _ _ _ _ _ hH rfl (by rw [hidh]; exact hlth)
    · refine doctorListsOk_insert _ _ _ _ hDL ?_
      intro x hx
      simp only [List.mem_append, List.mem_singleton] at hx
      rcases hx with hx | hx
      · exact hDL _ d hld x hx
      · rw [hx, hidp]; exact hltp
    · refine patientListsOk_insert _ _ _ _ hPL ?_
      intro x hx
      simp only [List.mem_append, List.mem_singleton] at hx
      rcases hx with hx | hx
      · exact hPL _ p hlp x hx
      · rw [hx, hidd]; exact hltd
    · intro dk pk dd pp hdd hpp
      simp only at hdd hpp
      rw [lookup_mapInsert] at hdd hpp
      by_cases hdk : d.id = dk
      · simp only [hdk, if_true, Option.some.injEq] at hdd
        subst hdd
        by_cases hpk : p.id = pk
        · simp only [hpk, if_true, Option.some.injEq] at hpp
          subst hpp
          refine iff_of_true ?_ ?_ <;> simp [← hdk, ← hpk]
        · simp only [hpk, if_false] at hpp
          obtain ⟨hidpp, _⟩ := hP _ _ hpp
          have hppne : pp.id ≠ p.id := by
            rw [hidpp]
            intro hcontra
            exact hpk (by rw [← hcontra])
          have hld' : lookup s.doctors dk = some d := by rw [← hdk, hidd]; exact hld
          simp only [List.mem_append, List.mem_singleton]
          rw [or_iff_left hppne, ← hdk]
          exact hSym dk pk d pp hld' hpp
      · simp only [hdk, if_false] at hdd
        by_cases hpk : p.id = pk
        · simp only [hpk, if_true, Option.some.injEq] at hpp
          subst hpp
          obtain ⟨hiddd, _⟩ := hD _ _ hdd
          have hddne : dd.id ≠ d.id := by
            rw [hiddd]
            intro hcontra
            exact hdk (by rw [← hcontra])
          have hlp' : lookup s.patients pk = some p := by rw [← hpk, hidp]; exact hlp
          simp only [List.mem_append, List.mem_singleton]
          rw [or_iff_left hddne, ← hpk]
          exact hSym dk pk dd p hdd hlp'
        · simp only [hpk, if_false] at hpp
          exact hSym dk pk dd pp hdd hpp

theorem Inv_step (op : Op) (s : State) (hinv : Inv s) : Inv (step op s) := by
  cases op with
  | addHospital p => exact Inv_add_hospital p s hinv
  | editHospital p => exact Inv_edit_hospital p s hinv
  | addPatient p => exact Inv_add_patient p s hinv
  | editPatient p => exact Inv_edit_patient p s hinv
  | addDoctor p => exact Inv_add_doctor p s hinv
  | editDoctor p => exact Inv_edit_doctor p s hinv
  | assign p => exact Inv_assign p s hinv
  | updateHistory p now => exact Inv_update_history p now s hinv

theorem Inv_run (ops : List Op) (s : State) (hinv : Inv s) : Inv (run ops s) := by
  induction ops generalizing s with
  | nil => exact hinv
  | cons op rest ih => exact ih _ (Inv_step op s hinv)

theorem Inv_reachable (s : State) (hr : Reachable s) : Inv s := by
  obtain ⟨ops, hops⟩ := hr
  exact hops ▸ Inv_run ops emptyState Inv_empty

/-- C1.  Doctor-patient symmetry invariant: in every state reachable from the
empty store by any sequence of operations (in particular after every
successful `assign_patient_to_doctor` call, which is one such operation),
for every stored doctor and stored patient, the doctor's `patient_ids`
contains the patient's id if and only if the patient's `doctors_ids`
contains the doctor's id. -/
theorem doctor_patient_symmetry (s : State) (hr : Reachable s) : symInv s :=
  (Inv_reachable s hr).2.2.2.2.2

/-- Witness for C1: the scenario state (hospital, doctor, patient created and
assigned) is reachable, and the symmetry invariant holds there. -/
theorem doctor_patient_symmetry_witness :
    Reachable scState4 ∧ symInv scState4 :=
  have hr : Reachable scState4 :=
    ⟨[Op.addHospital scHospital, Op.addDoctor scDoctor,
      Op.addPatient scPatient, Op.assign scAssign], rfl⟩
  ⟨hr, doctor_patient_symmetry scState4 hr⟩

/-- C9.  The `NotFound` messages of `assign_patient_to_doctor` and
`get_patient_info` are swapped in the source: a missing doctor is reported
as "patient of id: <patient_id> not found" and a missing patient as
"Doctor of id: <doctor_id> not found" — the error names the wrong entity
kind and carries the other entity's ID, contradicting the spec's propagation
policy.  `update_patient_history` (lib.rs lines 490-497) shows the intended,
correct pairing, so the swap is a slip.  This theorem evaluates the code at
the failing inputs: doctor 5 absent from the empty store, yet the message
blames patient 7; doctor 1 present in `scState2` and patient 99 absent, yet
the message blames doctor 1. -/
theorem notfound_messages_swapped :
    assign_patient_to_doctor ⟨5, 7, "pw", "pw"⟩ emptyState =
      (.error (.NotFound "patient of id: 7 not found"), emptyState) ∧
    get_patient_info ⟨5, 7, "pw"⟩ emptyState =
      .error (.NotFound "patient of id: 7 not found") ∧
    get_patient_info ⟨1, 99, "dpw1"⟩ scState2 =
      .error (.NotFound "Doctor of id: 1 not found") :=
  ⟨rfl, rfl, rfl⟩

/-- C10.  The public read `get_patient` masks both the password and the
entire history with the placeholder for every stored patient; the true
history is returned (password still masked) only by the relationship-gated
`get_patient_info`. -/
theorem get_patient_masks_history (s : State) (pid : Nat) (p : Patient)
    (hlp : lookup s.patients pid = some p) :
    get_patient pid s = .ok { p with password := "-", history := "-" } ∧
    (∀ did dpw d, lookup s.doctors did = some d → d.password = dpw →
      d.id ∈ p.doctors_ids →
      get_patient_info ⟨did, pid, dpw⟩ s = .ok { p with password := "-" }) := by
  constructor
  · unfold get_patient
    rw [hlp]
  · intro did dpw d hld hpw hmem
    have hcont : (p.doctors_ids.contains d.id = false) = False := by
      simp [hmem]
    unfold get_patient_info
    dsimp only []
    rw [hld]
    dsimp only []
    rw [if_neg (not_not_intro hpw), hlp]
    dsimp only []
    rw [if_neg (hcont ▸ id)]

/-- Witness for C10: patient 2 in the scenario state has history
"cough and fever"; the public read returns the placeholder for password and
history, and the assigned doctor 1 retrieves the true history. -/
theorem get_patient_masks_history_witness :
    get_patient 2 scState4 =
      .ok ⟨2, "Alice", "-", "-", [1], []⟩ ∧
    get_patient_info ⟨1, 2, "dpw1"⟩ scState4 =
      .ok ⟨2, "Alice", "cough and fever", "-", [1], []⟩ :=
  have hlp : lookup scState4.patients 2 =
      some ⟨2, "Alice", "cough and fever", "ppw1", [1], []⟩ := rfl
  have h := get_patient_masks_history scState4 2 _ hlp
  ⟨h.1, h.2 1 "dpw1" ⟨1, "DocAA", "dpw1", 0, [2]⟩ rfl rfl (by decide)⟩

/-- C2 counterexample: `add_hospital` stores the payload password "secret",
but the immediately following `get_hospital_by_id` returns the record with
the password replaced by the placeholder "-", not the payload's password.
So the get-by-id read does not return a record whose password equals the
input payload's password. -/
theorem create_then_get_counterexample :
    (add_hospital scC2Hospital emptyState).1 =
      Except.ok ⟨0, "Hosp1", "Addr1", "secret", [], []⟩ ∧
    get_hospital_by_id 0 (add_hospital scC2Hospital emptyState).2 =
      Except.ok ⟨0, "Hosp1", "Addr1", "-", [], []⟩ ∧
    ("-" : String) ≠ "secret" :=
  ⟨rfl, rfl, by decide⟩

/-- C2 amended: immediately after a successful create, the corresponding
get-by-id read returns a record whose relationship lists are empty and whose
name (and hospital address) equal the payload, but whose password is masked
with "-" — and, for patients, whose history is masked with "-" as well (for
doctors, the stored `hospital_id` is the id of the hospital that admitted
the doctor). -/
theorem create_then_get (s : State) :
    (∀ pl h s', add_hospital pl s = (.ok h, s') →
       h.patients_ids = [] ∧ h.doctors_ids = [] ∧
       get_hospital_by_id h.id s' = .ok ⟨h.id, pl.name, pl.address, "-", [], []⟩) ∧
    (∀ pl p s', add_patient pl s = (.ok p, s') →
       p.doctors_ids = [] ∧ p.hospitals_ids = [] ∧
       get_patient p.id s' = .ok ⟨p.id, pl.name, "-", "-", [], []⟩) ∧
    (∀ pl d s' h0, add_doctor pl s = (.ok d, s') →
       lookup s.hospitals pl.hospital_id = some h0 →
       d.patient_ids = [] ∧
       get_doctor_by_id d.id s' = .ok ⟨d.id, pl.name, "-", h0.id, []⟩) := by
  refine ⟨?_, ?_, ?_⟩
  · intro pl h s' hok
    obtain ⟨hv, hnone, hh, hs'⟩ := add_hospital_ok pl s h s' hok
    subst hh
    subst hs'
    refine ⟨rfl, rfl, ?_⟩
    unfold get_hospital_by_id
    dsimp only []
    rw [lookup_mapInsert_self]
  · intro pl p s' hok
    obtain ⟨hv, hnone, hp, hs'⟩ := add_patient_ok pl s p s' hok
    subst hp
    subst hs'
    refine ⟨rfl, rfl, ?_⟩
    unfold get_patient
    dsimp only []
    rw [lookup_mapInsert_self]
  · intro pl d s' h0 hok hl0
    obtain ⟨h, hlh, hpw, hval, hnone, hd, hs'⟩ := add_doctor_ok pl s d s' hok
    rw [hlh] at hl0
    have hh0 : h = h0 := Option.some.inj hl0
    subst hh0
    subst hd
    subst hs'
    refine ⟨rfl, ?_⟩
    unfold get_doctor_by_id
    dsimp only []
    rw [lookup_mapInsert_self]

/-- Witness for C2 (amended): in the concrete scenario, each of the three
creates succeeds and the get-by-id read returns the masked record with empty
relationship lists. -/
theorem create_then_get_witness :
    get_hospital_by_id 0 scState1 = .ok ⟨0, "Hosp1", "Addr1", "-", [], []⟩ ∧
    get_patient 2 scState3 = .ok ⟨2, "Alice", "-", "-", [], []⟩ ∧
    get_doctor_by_id 1 scState2 = .ok ⟨1, "DocAA", "-", 0, []⟩ :=
  ⟨((create_then_get emptyState).1 scHospital
      ⟨0, "Hosp1", "Addr1", "hpw1", [], []⟩ scState1 rfl).2.2,
   ((create_then_get scState2).2.1 scPatient
      ⟨2, "Alice", "cough and fever", "ppw1", [], []⟩ scState3 rfl).2.2,
   ((create_then_get scState1).2.2 scDoctor
      ⟨1, "DocAA", "dpw1", 0, []⟩ scState2
      ⟨0, "Hosp1", "Addr1", "hpw1", [], []⟩ rfl rfl).2⟩

/-- C4.  Atomicity on authorization failure: whenever an edit or assign
operation is called for a stored entity with a password that does not equal
the stored password, the operation returns the `Unauthorized` error and the
returned state is exactly the input state — every record of all three
stores and the ID counter are unchanged.  All password checks of the four
operations are covered (the doctor's and the hospital's for `edit_doctor`,
the doctor's and the patient's for `assign_patient_to_doctor`). -/
theorem wrong_password_atomic (s : State) :
    (∀ pl h, lookup s.hospitals pl.hospital_id = some h →
       h.password ≠ pl.password →
       edit_hospital pl s =
         (.error (.Unauthorized "Unauthorized, password does not match, try again"), s)) ∧
    (∀ pl p, lookup s.patients pl.patient_id = some p →
       p.password ≠ pl.password →
       edit_patient pl s =
         (.error (.Unauthorized "Unauthorized, password does not match, try again"), s)) ∧
    (∀ pl d, lookup s.doctors pl.doctor_id = some d →
       d.password ≠ pl.doctor_password →
       edit_doctor pl s =
         (.error (.Unauthorized "Doctor Access unauthorized, password does not match, try again"), s)) ∧
    (∀ pl d h, lookup s.doctors pl.doctor_id = some d →
       d.password = pl.doctor_password →
       lookup s.hospitals pl.hospital_id = some h →
       h.password ≠ pl.hospital_password →
       edit_doctor pl s =
         (.error (.Unauthorized "Hospital access unauthorized, password does not match, try again"), s)) ∧
    (∀ pl d, lookup s.doctors pl.doctor_id = some d →
       d.password ≠ pl.doctor_password →
       assign_patient_to_doctor pl s =
         (.error (.Unauthorized "Doctor Access unauthorized, password does not match, try again"), s)) ∧
    (∀ pl d p, lookup s.doctors pl.doctor_id = some d →
       d.password = pl.doctor_password →
       lookup s.patients pl.patient_id = some p →
       p.password ≠ pl.patient_password →
       assign_patient_to_doctor pl s =
         (.error (.Unauthorized "Patient access unauthorized, password does not match, try again"), s)) := by
  refine ⟨?_, ?_, ?_, ?_, ?_, ?_⟩
  · intro pl h hl hne
    unfold edit_hospital
    rw [hl]
    dsimp only []
    rw [if_pos hne]
  · intro pl p hl hne
    unfold edit_patient
    rw [hl]
    dsimp only []
    rw [if_pos hne]
  · intro pl d hl hne
    unfold edit_doctor
    rw [hl]
    dsimp only []
    rw [if_pos hne]
  · intro pl d h hld hpw hlh hne
    unfold edit_doctor
    rw [hld]
    dsimp only []
    rw [if_neg (not_not_intro hpw), hlh]
    dsimp only []
    rw [if_pos hne]
  · intro pl d hl hne
    unfold assign_patient_to_doctor
    rw [hl]
    dsimp only []
    rw [if_pos hne]
  · intro pl d p hld hpw hlp hne
    unfold assign_patient_to_doctor
    rw [hld]
    dsimp only []
    rw [if_neg (not_not_intro hpw), hlp]
    dsimp only []
    rw [if_pos hne]

/-- Witness for C4: calling each operation on the scenario state with a
wrong password returns `Unauthorized` and the state untouched. -/
theorem wrong_password_atomic_witness :
    edit_hospital ⟨0, "NewNm", "WRONG"⟩ scState4 =
      (.error (.Unauthorized "Unauthorized, password does not match, try again"), scState4) ∧
    assign_patient_to_doctor ⟨1, 2, "dpw1", "WRONG"⟩ scState4 =
      (.error (.Unauthorized "Patient access unauthorized, password does not match, try again"), scState4) :=
  ⟨(wrong_password_atomic scState4).1 ⟨0, "NewNm", "WRONG"⟩
      ⟨0, "Hosp1", "Addr1", "hpw1", [2], [1]⟩ rfl (by decide),
   (wrong_password_atomic scState4).2.2.2.2.2 ⟨1, 2, "dpw1", "WRONG"⟩
      ⟨1, "DocAA", "dpw1", 0, [2]⟩ ⟨2, "Alice", "cough and fever", "ppw1", [1], []⟩
      rfl rfl rfl (by decide)⟩

/-- C3 counterexample: doctor 1 and patient 2 are already linked in
`scState4` (one successful assignment); re-running the same
`assign_patient_to_doctor` with the correct passwords succeeds and leaves
doctor 1's `patient_ids` as `[2, 2]` and patient 2's `doctors_ids` as
`[1, 1]` — the id occurs twice, not exactly once. -/
theorem assign_idempotence_counterexample :
    (assign_patient_to_doctor scAssign scState3).1 =
      Except.ok "Succesfully assigned patient Alice to doctor: DocAA and hospital: 0 " ∧
    (assign_patient_to_doctor scAssign scState4).1 =
      Except.ok "Succesfully assigned patient Alice to doctor: DocAA and hospital: 0 " ∧
    (lookup scState5.doctors 1).map Doctor.patient_ids = some [2, 2] ∧
    (lookup scState5.patients 2).map Patient.doctors_ids = some [1, 1] ∧
    ([2, 2] : List Nat).count 2 ≠ 1 ∧ ([1, 1] : List Nat).count 1 ≠ 1 :=
  ⟨rfl, rfl, rfl, rfl, by decide, by decide⟩

/-- C3 amended: `assign_patient_to_doctor` never deduplicates — every
successful call appends one more copy of the partner's id to each side, so
re-assigning an already linked pair leaves each list containing the id once
per successful assignment (twice after two), not exactly once. -/
theorem assign_appends_duplicate (pl : AddPatientToDoctor) (s : State)
    (d : Doctor) (p : Patient) (m : String) (s' : State)
    (hld : lookup s.doctors pl.doctor_id = some d)
    (hlp : lookup s.patients pl.patient_id = some p)
    (hok : assign_patient_to_doctor pl s = (.ok m, s')) :
    (lookup s'.doctors d.id).map Doctor.patient_ids = some (d.patient_ids ++ [p.id]) ∧
    (lookup s'.patients p.id).map Patient.doctors_ids = some (p.doctors_ids ++ [d.id]) ∧
    (lookup s'.doctors d.id).map (fun dd => dd.patient_ids.count p.id) =
      some (d.patient_ids.count p.id + 1) ∧
    (lookup s'.patients p.id).map (fun pp => pp.doctors_ids.count d.id) =
      some (p.doctors_ids.count d.id + 1) := by
  obtain ⟨d0, p0, h, hld0, hpw0, hlp0, hpwp0, hlh0, hs'⟩ := assign_ok pl s m s' hok
  rw [hld] at hld0
  have hdd : d = d0 := Option.some.inj hld0
  subst hdd
  rw [hlp] at hlp0
  have hpp : p = p0 := Option.some.inj hlp0
  subst hpp
  subst hs'
  dsimp only []
  have hlkd : lookup (mapInsert s.doctors d.id ({ d with patient_ids := d.patient_ids ++ [p.id] })) d.id = some ({ d with patient_ids := d.patient_ids ++ [p.id] }) :=
    lookup_mapInsert_self _ _ _
  have hlkp : lookup (mapInsert s.patients p.id ({ p with doctors_ids := p.doctors_ids ++ [d.id] })) p.id = some ({ p with doctors_ids := p.doctors_ids ++ [d.id] }) :=
    lookup_mapInsert_self _ _ _
  refine ⟨?_, ?_, ?_, ?_⟩
  · rw [hlkd]; rfl
  · rw [hlkp]; rfl
  · rw [hlkd]
    simp [List.count_append]
  · rw [hlkp]
    simp [List.count_append]

/-- Witness for C3 (amended): the second assignment of the already-linked
pair appends a duplicate, making the count two. -/
theorem assign_appends_duplicate_witness :
    (lookup scState5.doctors 1).map (fun dd => dd.patient_ids.count 2) = some 2 ∧
    (lookup scState5.patients 2).map (fun pp => pp.doctors_ids.count 1) = some 2 :=
  have h := assign_appends_duplicate scAssign scState4
    ⟨1, "DocAA", "dpw1", 0, [2]⟩ ⟨2, "Alice", "cough and fever", "ppw1", [1], []⟩
    "Succesfully assigned patient Alice to doctor: DocAA and hospital: 0 "
    scState5 rfl rfl rfl
  ⟨h.2.2.1, h.2.2.2⟩

/-- C5 counterexample: a successful `edit_doctor` is not frame-preserving on
relationship lists: renaming doctor 1 (already the sole member of hospital
0's `doctors_ids`) appends its id again, changing the hospital's
`doctors_ids` from `[1]` to `[1, 1]`. -/
theorem edit_frame_counterexample :
    (lookup scState2.hospitals 0).map Hospital.doctors_ids = some [1] ∧
    (edit_doctor scEditDoctor scState2).1 =
      Except.ok "Succesfully assigned doctor DocBB to hospital: Hosp1 " ∧
    (lookup (edit_doctor scEditDoctor scState2).2.hospitals 0).map Hospital.doctors_ids =
      some [1, 1] ∧
    ([1, 1] : List Nat) ≠ [1] :=
  ⟨rfl, rfl, rfl, by decide⟩

/-- C5 amended: successful `edit_hospital` and `edit_patient` change only the
edited entity's name, leaving its relationship lists and every other record
in all three stores (and the counter) unchanged; successful `edit_doctor`
leaves the doctor's own `patient_ids`, the patient store and the counter
unchanged, but appends the doctor's id to the target hospital's
`doctors_ids` (even when already present) and rewrites the doctor's
`hospital_id` and name. -/
theorem edit_frame (s : State) :
    (∀ pl h' s', edit_hospital pl s = (.ok h', s') →
      ∃ h, lookup s.hospitals pl.hospital_id = some h ∧
        s'.patients = s.patients ∧ s'.doctors = s.doctors ∧ s'.counter = s.counter ∧
        h'.patients_ids = h.patients_ids ∧ h'.doctors_ids = h.doctors_ids ∧
        lookup s'.hospitals h.id = some { h with name := pl.name } ∧
        ∀ k, k ≠ h.id → lookup s'.hospitals k = lookup s.hospitals k) ∧
    (∀ pl p' s', edit_patient pl s = (.ok p', s') →
      ∃ p, lookup s.patients pl.patient_id = some p ∧
        s'.hospitals = s.hospitals ∧ s'.doctors = s.doctors ∧ s'.counter = s.counter ∧
        p'.doctors_ids = p.doctors_ids ∧ p'.hospitals_ids = p.hospitals_ids ∧
        lookup s'.patients p.id = some { p with name := pl.name } ∧
        ∀ k, k ≠ p.id → lookup s'.patients k = lookup s.patients k) ∧
    (∀ pl m s', edit_doctor pl s = (.ok m, s') →
      ∃ d h, lookup s.doctors pl.doctor_id = some d ∧
        lookup s.hospitals pl.hospital_id = some h ∧
        s'.patients = s.patients ∧ s'.counter = s.counter ∧
        lookup s'.doctors d.id = some ({ d with hospital_id := h.id, name := pl.name }) ∧
        (∀ k, k ≠ d.id → lookup s'.doctors k = lookup s.doctors k) ∧
        lookup s'.hospitals h.id = some ({ h with doctors_ids := h.doctors_ids ++ [d.id] }) ∧
        (∀ k, k ≠ h.id → lookup s'.hospitals k = lookup s.hospitals k)) := by
  refine ⟨?_, ?_, ?_⟩
  · intro pl h' s' hok
    obtain ⟨h, hl, hpw, hh', hs'⟩ := edit_hospital_ok pl s h' s' hok
    subst hh'
    subst hs'
    refine ⟨h, hl, rfl, rfl, rfl, rfl, rfl, lookup_mapInsert_self _ _ _, ?_⟩
    intro k hk
    exact lookup_mapInsert_ne _ _ _ _ hk
  · intro pl p' s' hok
    obtain ⟨p, hl, hpw, hp', hs'⟩ := edit_patient_ok pl s p' s' hok
    subst hp'
    subst hs'
    refine ⟨p, hl, rfl, rfl, rfl, rfl, rfl, lookup_mapInsert_self _ _ _, ?_⟩
    intro k hk
    exact lookup_mapInsert_ne _ _ _ _ hk
  · intro pl m s' hok
    obtain ⟨d, h, hld, hpwd, hlh, hpwh, hs'⟩ := edit_doctor_ok pl s m s' hok
    subst hs'
    refine ⟨d, h, hld, hlh, rfl, rfl, ?_, ?_, ?_, ?_⟩
    · exact lookup_mapInsert_self _ _ _
    · intro k hk
      exact lookup_mapInsert_ne _ _ _ _ hk
    · exact lookup_mapInsert_self _ _ _
    · intro k hk
      exact lookup_mapInsert_ne _ _ _ _ hk

/-- Witness for C5 (amended): renaming hospital 0 with its correct password
leaves the doctor and patient stores, the counter, and the hospital's
relationship lists untouched; the successful `edit_doctor` of the
counterexample duplicates the hospital's `doctors_ids` entry exactly as the
amended claim states. -/
theorem edit_frame_witness :
    lookup (edit_hospital scEditHospital scState1).2.hospitals 0 =
      some ⟨0, "NewNm", "Addr1", "hpw1", [], []⟩ ∧
    lookup (edit_doctor scEditDoctor scState2).2.hospitals 0 =
      some ⟨0, "Hosp1", "Addr1", "hpw1", [], [1, 1]⟩ :=
  have h1 := (edit_frame scState1).1 scEditHospital
    ⟨0, "NewNm", "Addr1", "hpw1", [], []⟩
    (edit_hospital scEditHospital scState1).2 rfl
  have h2 := (edit_frame scState2).2.2 scEditDoctor
    "Succesfully assigned doctor DocBB to hospital: Hosp1 "
    (edit_doctor scEditDoctor scState2).2 rfl
  by
    obtain ⟨h, hl, _, _, _, _, _, hself, _⟩ := h1
    obtain ⟨d2, h2r, hld2, hlh2, _, _, _, _, hself2, _⟩ := h2
    have hh : h = ⟨0, "Hosp1", "Addr1", "hpw1", [], []⟩ := Option.some.inj hl.symm
    have hd2 : d2 = ⟨1, "DocAA", "dpw1", 0, []⟩ := Option.some.inj hld2.symm
    have hh2 : h2r = ⟨0, "Hosp1", "Addr1", "hpw1", [], [1]⟩ := Option.some.inj hlh2.symm
    subst hh
    subst hd2
    subst hh2
    exact ⟨hself, hself2⟩

/-- C7.  Relationship gating: for a stored doctor and a stored patient whose
`doctors_ids` does not contain the doctor's id, `get_patient_info` and
`update_patient_history` with the doctor's correct password return the
`Unauthorized` error, and `update_patient_history` leaves the state exactly
unchanged — the password check passes but the relationship check rejects. -/
theorem relationship_gating (s : State) (did pid : Nat) (dpw txt : String)
    (now : Nat) (d : Doctor) (p : Patient)
    (hld : lookup s.doctors did = some d) (hpw : d.password = dpw)
    (hlp : lookup s.patients pid = some p) (hrel : d.id ∉ p.doctors_ids) :
    get_patient_info ⟨did, pid, dpw⟩ s =
      .error (.Unauthorized
        "Patient access unauthorized, doctor is not assigned to patient, get patient permission") ∧
    update_patient_history ⟨did, pid, dpw, txt⟩ now s =
      (.error (.Unauthorized
        "Patient access unauthorized, doctor is not assigned to patient, try again"), s) := by
  have hcont : p.doctors_ids.contains d.id = false := by
    simp [hrel]
  constructor
  · unfold get_patient_info
    dsimp only []
    rw [hld]
    dsimp only []
    rw [if_neg (not_not_intro hpw), hlp]
    dsimp only []
    rw [if_pos hcont]
  · unfold update_patient_history
    dsimp only []
    rw [hld]
    dsimp only []
    rw [if_neg (not_not_intro hpw), hlp]
    dsimp only []
    rw [if_pos hcont]

/-- Witness for C7: in the state where only the hospital, doctor 1 and
patient 2 exist but no assignment has been made, doctor 1 with its correct
password is rejected on both gated operations, and the state is unchanged. -/
theorem relationship_gating_witness :
    get_patient_info ⟨1, 2, "dpw1"⟩ scState3 =
      .error (.Unauthorized
        "Patient access unauthorized, doctor is not assigned to patient, get patient permission") ∧
    update_patient_history ⟨1, 2, "dpw1", "flu shot"⟩ 99 scState3 =
      (.error (.Unauthorized
        "Patient access unauthorized, doctor is not assigned to patient, try again"), scState3) :=
  relationship_gating scState3 1 2 "dpw1" "flu shot" 99
    ⟨1, "DocAA", "dpw1", 0, []⟩ ⟨2, "Alice", "cough and fever", "ppw1", [], []⟩
    rfl rfl rfl (by decide)

theorem doCreate_counter (c : CreateOp) (s : State) (i : Nat) (s' : State)
    (hok : doCreate c s = (.ok i, s')) :
    i = s.counter ∧ s'.counter = s.counter + 1 := by
  cases c with
  | hosp pl =>
      unfold doCreate at hok
      dsimp only [] at hok
      cases hh : (add_hospital pl s).1 with
      | error e => rw [hh] at hok; simp [Except.map] at hok
      | ok h =>
          rw [hh] at hok
          simp only [Except.map, Prod.mk.injEq, Except.ok.injEq] at hok
          obtain ⟨hv, hnone, hrec, hst⟩ :=
            add_hospital_ok pl s h (add_hospital pl s).2 (Prod.ext_iff.mpr ⟨hh, rfl⟩)
          refine ⟨?_, ?_⟩
          · rw [← hok.1, hrec]
          · rw [← hok.2, hst]
  | pat pl =>
      unfold doCreate at hok
      dsimp only [] at hok
      cases hh : (add_patient pl s).1 with
      | error e => rw [hh] at hok; simp [Except.map] at hok
      | ok p =>
          rw [hh] at hok
          simp only [Except.map, Prod.mk.injEq, Except.ok.injEq] at hok
          obtain ⟨hv, hnone, hrec, hst⟩ :=
            add_patient_ok pl s p (add_patient pl s).2 (Prod.ext_iff.mpr ⟨hh, rfl⟩)
          refine ⟨?_, ?_⟩
          · rw [← hok.1, hrec]
          · rw [← hok.2, hst]
  | doc pl =>
      unfold doCreate at hok
      dsimp only [] at hok
      cases hh : (add_doctor pl s).1 with
      | error e => rw [hh] at hok; simp [Except.map] at hok
      | ok d =>
          rw [hh] at hok
          simp only [Except.map, Prod.mk.injEq, Except.ok.injEq] at hok
          obtain ⟨h, hlh, hpw, hv, hnone, hrec, hst⟩ :=
            add_doctor_ok pl s d (add_doctor pl s).2 (Prod.ext_iff.mpr ⟨hh, rfl⟩)
          refine ⟨?_, ?_⟩
          · rw [← hok.1, hrec]
          · rw [← hok.2, hst]

theorem createdIds_chain (ops : List CreateOp) (s : State) (ids : List Nat)
    (h : createdIds ops s = some ids) :
    ids.Chain' (fun a b => a < b) ∧ ∀ i ∈ ids, s.counter ≤ i := by
  induction ops generalizing s ids with
  | nil =>
      unfold createdIds at h
      simp only [Option.some.injEq] at h
      subst h
      exact ⟨List.chain'_nil, by intro i hi; simp at hi⟩
  | cons c rest ih =>
      unfold createdIds at h
      cases hd : doCreate c s with
      | mk r s1 =>
          rw [hd] at h
          cases r with
          | error e => simp at h
          | ok i =>
              dsimp only [] at h
              cases hrest : createdIds rest s1 with
              | none => rw [hrest] at h; simp at h
              | some rids =>
                  rw [hrest] at h
                  simp only [Option.map_some', Option.some.injEq] at h
                  subst h
                  obtain ⟨hi, hc1⟩ := doCreate_counter c s i s1 hd
                  obtain ⟨hch, hge⟩ := ih s1 rids hrest
                  constructor
                  · refine List.chain'_cons'.mpr ⟨?_, hch⟩
                    intro b hb
                    have hbmem : b ∈ rids := List.mem_of_mem_head? hb
                    have hb1 := hge b hbmem
                    rw [hc1] at hb1
                    rw [hi]
                    omega
                  · intro j hj
                    rcases List.mem_cons.mp hj with hj | hj
                    · rw [hj, hi]
                    · have hj1 := hge j hj
                      rw [hc1] at hj1
                      omega

/-- C8.  ID uniqueness across entity types: for any sequence of create
operations (any mix of add_hospital, add_doctor, add_patient) from any
state, if every create succeeds then the assigned IDs are strictly
increasing in call order and pairwise distinct, because all three creates
allocate from the single shared counter. -/
theorem created_ids_distinct (ops : List CreateOp) (s : State) (ids : List Nat)
    (h : createdIds ops s = some ids) :
    ids.Chain' (fun a b => a < b) ∧ ids.Pairwise (fun a b => a ≠ b) := by
  obtain ⟨hch, _⟩ := createdIds_chain ops s ids h
  refine ⟨hch, ?_⟩
  have hpw := List.chain'_iff_pairwise.mp hch
  exact hpw.imp (fun hab => Nat.ne_of_lt hab)

/-- Witness for C8: creating a hospital, a doctor and a patient in sequence
from the empty store yields the IDs 0, 1, 2, strictly increasing and
pairwise distinct. -/
theorem created_ids_distinct_witness :
    createdIds [CreateOp.hosp scHospital, CreateOp.doc scDoctor,
      CreateOp.pat scPatient] emptyState = some [0, 1, 2] ∧
    List.Chain' (fun a b => a < b) [0, 1, 2] ∧
    List.Pairwise (fun a b => a ≠ b) ([0, 1, 2] : List Nat) :=
  have hids : createdIds [CreateOp.hosp scHospital, CreateOp.doc scDoctor,
      CreateOp.pat scPatient] emptyState = some [0, 1, 2] := rfl
  ⟨hids, created_ids_distinct _ emptyState _ hids⟩

theorem update_history_doctors_eq (pl : PatientHistoryUpdate) (now : Nat) (s : State) :
    (update_patient_history pl now s).2.doctors = s.doctors := by
  rcases update_patient_history_state pl now s with heq | ⟨d, p, _, _, heq⟩ <;> rw [heq]

theorem historySegments_congr (s s' : State) (hd : s.doctors = s'.doctors) :
    ∀ calls, historySegments s calls = historySegments s' calls := by
  intro calls
  induction calls with
  | nil => rfl
  | cons c rest ih =>
      unfold historySegments
      rw [hd, ih]

/-- C6.  History append is monotonic and content-complete: if every call of
a sequence of `update_patient_history` requests targeting patient `pid`
succeeds, the final history is the initial history followed by the appended
entries, one per call in call order — so the previous history is always a
prefix (nothing lost or reordered), and each appended entry is
`historyEntry d now txt` = " \n Doctor <id> : <name> at <time> \n <text>",
carrying the acting doctor's identity, the timestamp and the new text. -/
theorem history_append_monotonic (calls : List (PatientHistoryUpdate × Nat))
    (s : State) (pid : Nat) (p : Patient)
    (htarget : ∀ c ∈ calls, (c : PatientHistoryUpdate × Nat).1.patient_id = pid)
    (hok : historyCallsOk calls s = true)
    (hlp : lookup s.patients pid = some p) (hpid : p.id = pid) :
    lookup (runHistoryCalls calls s).patients pid =
      some { p with history := p.history ++ historySegments s calls } := by
  induction calls generalizing s p with
  | nil =>
      unfold runHistoryCalls historySegments
      dsimp only [List.foldl]
      rw [hlp, String.append_empty]
  | cons c rest ih =>
      cases hu : update_patient_history c.1 c.2 s with
      | mk r s1 =>
          cases r with
          | error e =>
              unfold historyCallsOk at hok
              rw [hu] at hok
              simp at hok
          | ok m =>
              unfold historyCallsOk at hok
              rw [hu] at hok
              dsimp only [] at hok
              obtain ⟨d, p0, hld, hpw, hlp0, hrel, hs1⟩ :=
                update_patient_history_ok c.1 c.2 s m s1 hu
              have hpidc : c.1.patient_id = pid := htarget c (List.mem_cons_self c rest)
              rw [hpidc, hlp] at hlp0
              have hp0 : p = p0 := Option.some.inj hlp0
              subst hp0
              have hrun : runHistoryCalls (c :: rest) s = runHistoryCalls rest s1 := by
                unfold runHistoryCalls
                dsimp only [List.foldl]
                rw [hu]
              have hlp1 : lookup s1.patients pid =
                  some ({ p with history := p.history ++ historyEntry d c.2 c.1.new_history }) := by
                rw [hs1]
                dsimp only []
                rw [← hpid]
                exact lookup_mapInsert_self _ _ _
              have htarget' : ∀ cc ∈ rest, (cc : PatientHistoryUpdate × Nat).1.patient_id = pid :=
                fun cc hcc => htarget cc (List.mem_cons_of_mem c hcc)
              have hrec := ih s1
                ({ p with history := p.history ++ historyEntry d c.2 c.1.new_history })
                htarget' hok hlp1 hpid
              rw [hrun, hrec]
              have hsegrest : historySegments s1 rest = historySegments s rest := by
                have hde : s1.doctors = s.doctors := by rw [hs1]
                exact historySegments_congr s1 s hde rest
              have hsegcons : historySegments s (c :: rest) =
                  historyEntry d c.2 c.1.new_history ++ historySegments s rest := by
                have hstep : historySegments s (c :: rest) =
                    match lookup s.doctors c.1.doctor_id with
                    | some dd => historyEntry dd c.2 c.1.new_history ++ historySegments s rest
                    | none => historySegments s rest := rfl
                rw [hstep, hld]
              rw [hsegrest, hsegcons, String.append_assoc]

/-- Witness for C6: two successful history updates by doctor 1 on patient 2
leave the patient's history equal to the original history followed by the
two entries in call order. -/
theorem history_append_monotonic_witness :
    historyCallsOk [(scHistCall, 111), (scHistCall, 222)] scState4 = true ∧
    lookup (runHistoryCalls [(scHistCall, 111), (scHistCall, 222)] scState4).patients 2 =
      some ⟨2, "Alice",
        "cough and fever \n Doctor 1 : DocAA at 111 \n flu shot \n Doctor 1 : DocAA at 222 \n flu shot",
        "ppw1", [1], []⟩ :=
  have hok : historyCallsOk [(scHistCall, 111), (scHistCall, 222)] scState4 = true := rfl
  ⟨hok, history_append_monotonic [(scHistCall, 111), (scHistCall, 222)] scState4 2
    ⟨2, "Alice", "cough and fever", "ppw1", [1], []⟩ (by decide) hok rfl rfl⟩

end PatientRecords
